import Mathlib

/-!
Shallow embedding of the supply-chain simulation engine
(`simulation.py`, entity records from `models.py`).

Conventions of the embedding:
* machine integers / DB integer columns are `Int` (so non-negativity is a
  provable invariant, not a typing artifact);
* Python floats used as probabilities and weights are `ℚ`;
* the simulated clock is a count of minutes (`Nat`); DB `DATE` values are
  day numbers (`Int`), `dateOf` truncates a clock value to its day;
* Python dicts are association lists, the relational tables are lists of
  row records kept in insertion order;
* every random draw is an explicit oracle argument (an index into the
  candidate list, reduced mod its length, mirrors `random.choice` /
  `random.choices`; `random.randint(a,b)` is `a + r % (b - a + 1)`;
  `random.random()` is a rational draw supplied by the oracle);
* Python exceptions (`KeyError` on `d[k]`, `AttributeError` on
  `None.attr`, `IndexError` on `random.choice([])`, `TypeError` on
  `None[0]`) are `Except Fault`; SQL aggregates that can be NULL are
  `Option Int`, and the Python comparison `None == n` is `false`.
-/

namespace SupplySim

/-- Order status vocabulary.  The source stores these as the literal DB
strings `"unfulfilled"`, `"partial"`, `"fulfilled"`, `"partial - expired"`,
`"expired"` (see `Status.toDb`); the mapping is injective so the embedding
uses an inductive type. -/
inductive Status where
  | unfulfilled
  | partFilled
  | fulfilled
  | partExpired
  | expired
deriving DecidableEq, Repr

/-- The literal string written to the `ORDER_STATUS` column by
`update_order_status` in the source. -/
def Status.toDb : Status → String
  | .unfulfilled => "unfulfilled"
  | .partFilled => "partial"
  | .fulfilled => "fulfilled"
  | .partExpired => "partial - expired"
  | .expired => "expired"

/-- `models.Supplier`. -/
structure Supplier where
  id : Nat
  name : String
  category : String
  max_quantity : Int
  failure_rate : ℚ
  fulfillment_weight : ℚ
deriving DecidableEq, Repr

/-- `models.Item`. -/
structure Item where
  id : Nat
  name : String
  category : String
  unit_price : ℚ
  failure_rate : ℚ
  restock_weight : ℚ
deriving DecidableEq, Repr

/-- `models.Customer`. -/
structure Customer where
  id : Nat
  name : String
  region : String
deriving DecidableEq, Repr

/-- A row of the `ORDERS` table. -/
structure OrderRow where
  order_id : Nat
  customer_id : Nat
  order_date : Int
  order_status : Status
deriving DecidableEq, Repr

/-- A row of the `ORDER_ITEMS` table. -/
structure OrderItemRow where
  order_item_id : Nat
  order_id : Nat
  item_id : Nat
  supplier_id : Nat
  quantity : Int
  fulfilled_quantity : Int
  fulfilled_date : Option Int
deriving DecidableEq, Repr

/-- A row of the `INVENTORY` table, keyed by `(ITEM_ID, SUPPLIER_ID)`. -/
structure InventoryRow where
  item_id : Nat
  supplier_id : Nat
  quantity_on_hand : Int
  reorder_point : Int
  last_updated : Option Int
deriving DecidableEq, Repr

/-- The `result_data` dict built by `_attempt_fulfillment`. -/
structure ResultData where
  order_id : Nat
  item_id : Nat
  supplier_id : Nat
  requested_qty : Int
  previously_fulfilled : Int
  newly_fulfilled : Int
  success : Bool
  failure_reason : Option String
  timestamp : Nat
deriving DecidableEq, Repr

/-- One record appended to `inventory_history` by `log_inventory_snapshot`. -/
structure SnapshotRec where
  timestamp : Nat
  item_id : Nat
  supplier_id : Nat
  quantity_on_hand : Int
  restock_weight : ℚ
  fulfillment_weight : ℚ
  backlog_unfulfilled_qty : Int
deriving DecidableEq, Repr

deriving instance DecidableEq for Except

/-- Python exceptions that the engine's code can raise. -/
inductive Fault where
  | keyError : Nat → Fault
  | attributeError : Fault
  | indexError : Fault
  | typeError : Fault
deriving DecidableEq, Repr

/-- The whole mutable state of a `Simulation` object plus the three DB
tables it owns, and a ghost `console` of error lines printed by the
`except` branch of `run`. -/
structure SimState where
  suppliers : List (Nat × Supplier)
  items : List (Nat × Item)
  customers : List (Nat × Customer)
  supplier_items : List (Nat × List Nat)
  sim_time : Nat
  orders : List OrderRow
  order_items : List OrderItemRow
  inventory : List InventoryRow
  next_order_id : Nat
  next_order_item_id : Nat
  inventory_history : List SnapshotRec
  order_fulfillment_log : List ResultData
  recent_fulfillments : List ResultData
  cached_unfulfilled_orders : List Nat
  commit_count : Nat
  console : List String
deriving DecidableEq, Repr

def minutesPerDay : Nat := 1440

/-- `datetime.date()` of a clock value, as a day number. -/
def dateOf (t : Nat) : Int := (t / minutesPerDay : Nat)

/-- `random.choice(l)` driven by an oracle index; `none` exactly when the
list is empty (where Python raises). -/
def pickFrom {α : Type} (l : List α) (i : Nat) : Option α :=
  l[i % l.length]?

/-- Python truthiness test `not x` for an optional id (`None` and `0` are
falsy). -/
def pyFalsyOpt : Option Nat → Bool
  | none => true
  | some n => n == 0

/-- Python `==` between a possibly-NULL SQL aggregate and an integer:
`None == n` is `False`. -/
def pyEqOptInt : Option Int → Int → Bool
  | none, _ => false
  | some a, b => a == b

/-- Python `int()` on a rational: truncation toward zero (the reduced
numerator T-divided by the positive denominator). -/
def pyInt (q : ℚ) : Int := q.num.tdiv (q.den : Int)

/-- Count of lines with `FULFILLED_QUANTITY = 0`. -/
def zeroCount (ls : List OrderItemRow) : Int :=
  ((ls.filter fun l => l.fulfilled_quantity == 0).length : Nat)

/-- Count of lines with `FULFILLED_QUANTITY = QUANTITY`. -/
def fullCount (ls : List OrderItemRow) : Int :=
  ((ls.filter fun l => l.fulfilled_quantity == l.quantity).length : Nat)

/-- `SUM(CASE WHEN FULFILLED_QUANTITY = 0 THEN 1 ELSE 0 END)`:
NULL (`none`) over zero rows. -/
def sumZeroLines (ls : List OrderItemRow) : Option Int :=
  if ls.isEmpty then none else some (zeroCount ls)

/-- `SUM(CASE WHEN FULFILLED_QUANTITY = QUANTITY THEN 1 ELSE 0 END)`:
NULL (`none`) over zero rows. -/
def sumFullLines (ls : List OrderItemRow) : Option Int :=
  if ls.isEmpty then none else some (fullCount ls)

/-- The status decision chain of `update_order_status`, literally as in the
source (including the Python semantics of comparing a NULL aggregate). -/
def computeStatus (unfulfilled fulfilled : Option Int) (total : Int)
    (is_expired : Bool) : Status :=
  if pyEqOptInt unfulfilled total && is_expired then .expired
  else if is_expired then .partExpired
  else if pyEqOptInt fulfilled total then .fulfilled
  else if pyEqOptInt fulfilled 0 then .unfulfilled
  else .partFilled

/-- Lines of one order, as returned by the `ORDER_ITEMS` query of
`update_order_status`. -/
def orderLines (s : SimState) (order_id : Nat) : List OrderItemRow :=
  s.order_items.filter fun l => l.order_id == order_id

/-- Status recomputed from a line list and the order's age in days. -/
def statusFromLines (ls : List OrderItemRow) (age : Int) : Status :=
  computeStatus (sumZeroLines ls) (sumFullLines ls) (ls.length : Nat)
    (decide (age ≥ 14))

/-- `Simulation.update_order_status`: recompute one order's status from its
line aggregates and age and write it back to the `ORDERS` table. -/
def update_order_status (s : SimState) (order_id : Nat) (order_date : Int) :
    SimState :=
  let status := statusFromLines (orderLines s order_id)
    (dateOf s.sim_time - order_date)
  { s with orders := s.orders.map fun o =>
      if o.order_id == order_id then { o with order_status := status } else o }

/-- The spec's §4.2 precedence table, stated over plain aggregate counts
(count of all-zero lines `u`, count of fully fulfilled lines `f`, total
`t`) and an age threshold.  Written from the spec's words, to be compared
with the code-derived `computeStatus`. -/
def specStatusOfCounts (u f t age threshold : Int) : Status :=
  if u = t ∧ age ≥ threshold then .expired
  else if age ≥ threshold then .partExpired
  else if f = t then .fulfilled
  else if f = 0 then .unfulfilled
  else .partFilled

/-- Oracle data consumed by `create_order` for one sampled item: the item
(one member of `random.sample(items.values(), k)`), the index drawn by
`random.choice` over its eligible suppliers, and the raw draw behind
`random.randint(1, 5)` for the quantity. -/
structure CreatePick where
  item : Item
  supplier_idx : Nat
  qty_rand : Nat
deriving DecidableEq, Repr

/-- Oracle data consumed by one `create_order` call. -/
structure CreateRand where
  customer_idx : Nat
  picks : List CreatePick
deriving DecidableEq, Repr

/-- `[sid for sid, items in self.supplier_items.items() if item.id in items]`. -/
def eligibleSuppliers (s : SimState) (item_id : Nat) : List Nat :=
  (s.supplier_items.filter fun p => p.2.contains item_id).map (·.1)

/-- Insert one `ORDER_ITEMS` row for a sampled item, skipping items with no
eligible supplier — the loop body of `create_order`. -/
def createOrderLine (order_id : Nat) (st : SimState) (p : CreatePick) :
    SimState :=
  match pickFrom (eligibleSuppliers st p.item.id) p.supplier_idx with
  | none => st
  | some supplier_id =>
    { st with
      order_items := st.order_items ++
        [{ order_item_id := st.next_order_item_id
           order_id := order_id
           item_id := p.item.id
           supplier_id := supplier_id
           quantity := (1 + p.qty_rand % 5 : Nat)
           fulfilled_quantity := 0
           fulfilled_date := none }]
      next_order_item_id := st.next_order_item_id + 1 }

/-- `Simulation.create_order`: insert a new order (status `unfulfilled`)
for a random customer, then one line per sampled item that has an eligible
supplier.  Raises (`IndexError`) when there are no customers. -/
def create_order (s : SimState) (r : CreateRand) : Except Fault SimState :=
  match pickFrom (s.customers.map (·.2)) r.customer_idx with
  | none => .error .indexError
  | some customer =>
    let order_id := s.next_order_id
    let s1 := { s with
      orders := s.orders ++
        [{ order_id := order_id
           customer_id := customer.id
           order_date := dateOf s.sim_time
           order_status := .unfulfilled }]
      next_order_id := s.next_order_id + 1 }
    .ok (r.picks.foldl (createOrderLine order_id) s1)

/-- Oracle data consumed by one `fulfill_order` call. -/
structure FulfillRand where
  order_idx : Nat
  line_idx : Nat
  draw : ℚ
deriving DecidableEq, Repr

/-- `Simulation._select_random_unfulfilled_order`. -/
def _select_random_unfulfilled_order (s : SimState) (idx : Nat) :
    Option Nat :=
  if s.cached_unfulfilled_orders.isEmpty then none
  else pickFrom s.cached_unfulfilled_orders idx

/-- The candidate lines of `_get_random_unfulfilled_item`: lines of the
order with `FULFILLED_QUANTITY < QUANTITY`. -/
def unfulfilledCandidates (s : SimState) (order_id : Nat) :
    List OrderItemRow :=
  s.order_items.filter fun l =>
    l.order_id == order_id && decide (l.fulfilled_quantity < l.quantity)

/-- `Simulation._get_random_unfulfilled_item`. -/
def _get_random_unfulfilled_item (s : SimState) (order_id : Nat)
    (idx : Nat) : Option OrderItemRow :=
  match unfulfilledCandidates s order_id with
  | [] => none
  | c => pickFrom c idx

/-- First inventory row for an `(item, supplier)` pair, as the keyed
`INVENTORY` SELECT returns it. -/
def lookupInventory (s : SimState) (item_id supplier_id : Nat) :
    Option InventoryRow :=
  s.inventory.find? fun rw =>
    rw.item_id == item_id && rw.supplier_id == supplier_id

/-- The two UPDATE statements of a successful fulfillment: decrement the
inventory row by `fulfill_qty` and increment the order line by the same
amount, stamping both with the current date. -/
def fulfillApply (s : SimState) (item_id supplier_id order_item_id : Nat)
    (fulfill_qty : Int) : SimState :=
  { s with
    inventory := s.inventory.map fun rw =>
      if rw.item_id == item_id && rw.supplier_id == supplier_id then
        { rw with
          quantity_on_hand := rw.quantity_on_hand - fulfill_qty
          last_updated := some (dateOf s.sim_time) }
      else rw
    order_items := s.order_items.map fun l =>
      if l.order_item_id == order_item_id then
        { l with
          fulfilled_quantity := l.fulfilled_quantity + fulfill_qty
          fulfilled_date := some (dateOf s.sim_time) }
      else l }

/-- `Simulation._attempt_fulfillment`.  The three business failures return
a structured `ResultData` with `success := false`; a missing item or
supplier id raises (`AttributeError` on `None.failure_rate`). -/
def _attempt_fulfillment (s : SimState)
    (order_id order_item_id item_id supplier_id : Nat)
    (quantity fulfilled_quantity : Int) (draw : ℚ) :
    Except Fault (SimState × ResultData) :=
  match s.items.lookup item_id, s.suppliers.lookup supplier_id with
  | some item, some supplier =>
    let remaining_qty := quantity - fulfilled_quantity
    let result_data : ResultData :=
      { order_id := order_id
        item_id := item_id
        supplier_id := supplier_id
        requested_qty := quantity
        previously_fulfilled := fulfilled_quantity
        newly_fulfilled := 0
        success := false
        failure_reason := none
        timestamp := s.sim_time }
    if draw < supplier.failure_rate + item.failure_rate then
      .ok (s, { result_data with failure_reason := some "unreliable_supplier" })
    else
      match lookupInventory s item_id supplier_id with
      | none =>
        .ok (s, { result_data with failure_reason := some "no_inventory_entry" })
      | some row =>
        if row.quantity_on_hand = 0 then
          .ok (s, { result_data with failure_reason := some "stockout" })
        else
          let fulfill_qty := min row.quantity_on_hand remaining_qty
          let s1 := fulfillApply s item_id supplier_id order_item_id fulfill_qty
          let s2 := update_order_status s1 order_id (dateOf s1.sim_time)
          .ok (s2, { result_data with
                     newly_fulfilled := fulfill_qty
                     success := true })
  | _, _ => .error .attributeError

/-- `Simulation.fulfill_order`: select a cached order (Python truthiness —
`None` or id `0` aborts), then a candidate line, attempt it, and append
the outcome to `recent_fulfillments`. -/
def fulfill_order (s : SimState) (r : FulfillRand) : Except Fault SimState :=
  let oid? := _select_random_unfulfilled_order s r.order_idx
  if pyFalsyOpt oid? then .ok s
  else
    match oid? with
    | none => .ok s
    | some order_id =>
      match _get_random_unfulfilled_item s order_id r.line_idx with
      | none => .ok s
      | some cand =>
        match _attempt_fulfillment s order_id cand.order_item_id
            cand.item_id cand.supplier_id cand.quantity
            cand.fulfilled_quantity r.draw with
        | .error f => .error f
        | .ok (s1, result) =>
          .ok { s1 with
                recent_fulfillments := s1.recent_fulfillments ++ [result] }

/-- Oracle data consumed by one `restock_inventory` call: the index drawn
by the weighted `random.choices` over the low-stock rows. -/
structure RestockRand where
  chosen_idx : Nat
deriving DecidableEq, Repr

/-- The weight list `[self.items[item_id].restock_weight for item_id in
item_ids]`; a missing item id raises `KeyError`. -/
def weightsOf (s : SimState) : List Nat → Except Fault (List ℚ)
  | [] => .ok []
  | id :: rest =>
    match s.items.lookup id with
    | none => .error (.keyError id)
    | some it =>
      match weightsOf s rest with
      | .error f => .error f
      | .ok ws => .ok (it.restock_weight :: ws)

/-- The low-stock candidates of `restock_inventory`:
`QUANTITY_ON_HAND <= REORDER_POINT`. -/
def lowStockRows (s : SimState) : List InventoryRow :=
  s.inventory.filter fun rw =>
    decide (rw.quantity_on_hand ≤ rw.reorder_point)

/-- The clamped replenishment amount of `restock_inventory`:
`min(int(10 * restock_weight), max_qty - current_qty)`. -/
def restockAmount (restock_weight : ℚ) (max_qty current_qty : Int) : Int :=
  min (pyInt (10 * restock_weight)) (max_qty - current_qty)

/-- `Simulation.restock_inventory`: pick one low-stock row (weighted by
item restock weight — the weight list is built first and raises `KeyError`
on any unknown item id), then add the clamped replenishment amount.
No low-stock row is a silent no-op. -/
def restock_inventory (s : SimState) (r : RestockRand) :
    Except Fault SimState :=
  let low_stock := lowStockRows s
  if low_stock.isEmpty then .ok s
  else
    match weightsOf s (low_stock.map (·.item_id)) with
    | .error f => .error f
    | .ok _ =>
      match pickFrom low_stock r.chosen_idx with
      | none => .ok s
      | some chosen =>
        match s.items.lookup chosen.item_id with
        | none => .error (.keyError chosen.item_id)
        | some item =>
          match s.suppliers.lookup chosen.supplier_id with
          | none => .error (.keyError chosen.supplier_id)
          | some supplier =>
            match lookupInventory s chosen.item_id chosen.supplier_id with
            | none => .error .typeError
            | some row =>
              let amount := restockAmount item.restock_weight
                supplier.max_quantity row.quantity_on_hand
              .ok { s with inventory := s.inventory.map fun rw =>
                    if rw.item_id == chosen.item_id &&
                        rw.supplier_id == chosen.supplier_id then
                      { rw with
                        quantity_on_hand := rw.quantity_on_hand + amount
                        last_updated := some (dateOf s.sim_time) }
                    else rw }

/-- `Simulation.update_cached_unfulfilled_orders`.  The source compares the
`DATE` column against the full timestamp `self.sim_time - timedelta(days=14)`,
so the date is promoted to midnight (multiplied back to minutes) here. -/
def update_cached_unfulfilled_orders (s : SimState) : SimState :=
  let keep : OrderRow → Bool := fun o =>
    (decide (o.order_status = .partFilled) ||
     decide (o.order_status = .unfulfilled)) &&
    decide (o.order_date * (minutesPerDay : Int) ≥
      (s.sim_time : Int) - 14 * (minutesPerDay : Int))
  { s with cached_unfulfilled_orders := (s.orders.filter keep).map (·.order_id) }

/-- `Simulation.expire_old_orders`: snapshot the aged unfulfilled/partial
orders, then recompute each one's status. -/
def expire_old_orders (s : SimState) : SimState :=
  let keep : OrderRow → Bool := fun o =>
    (decide (o.order_status = .unfulfilled) ||
     decide (o.order_status = .partFilled)) &&
    decide (o.order_date ≤ dateOf s.sim_time - 14)
  let rows := (s.orders.filter keep).map fun o => (o.order_id, o.order_date)
  rows.foldl (fun st p => update_order_status st p.1 p.2) s

/-- Backlog for one `(item, supplier)` pair:
`SUM(QUANTITY - FULFILLED_QUANTITY)` over its open lines, `or 0`. -/
def backlogFor (s : SimState) (item_id supplier_id : Nat) : Int :=
  (s.order_items.filter fun l =>
    l.item_id == item_id && l.supplier_id == supplier_id &&
    decide (l.fulfilled_quantity < l.quantity)).foldl
    (fun acc l => acc + (l.quantity - l.fulfilled_quantity)) 0

/-- The per-row loop of `log_inventory_snapshot`; `self.items[item_id]`
and `self.suppliers[supplier_id]` raise `KeyError` on unknown ids. -/
def snapshotRows (s : SimState) : List InventoryRow → Except Fault SimState
  | [] => .ok s
  | rw :: rest =>
    match s.items.lookup rw.item_id with
    | none => .error (.keyError rw.item_id)
    | some item =>
      match s.suppliers.lookup rw.supplier_id with
      | none => .error (.keyError rw.supplier_id)
      | some supplier =>
        snapshotRows
          { s with inventory_history := s.inventory_history ++
              [{ timestamp := s.sim_time
                 item_id := rw.item_id
                 supplier_id := rw.supplier_id
                 quantity_on_hand := rw.quantity_on_hand
                 restock_weight := item.restock_weight
                 fulfillment_weight := supplier.fulfillment_weight
                 backlog_unfulfilled_qty := backlogFor s rw.item_id rw.supplier_id }] }
          rest

/-- `Simulation.log_inventory_snapshot`. -/
def log_inventory_snapshot (s : SimState) : Except Fault SimState :=
  snapshotRows s s.inventory

/-- Merge the buffered fulfillments into the persistent log and clear the
buffer. -/
def flushBuffer (s : SimState) : SimState :=
  { s with
    order_fulfillment_log := s.order_fulfillment_log ++ s.recent_fulfillments
    recent_fulfillments := [] }

/-- The `i % 100 == 0` maintenance block of `Simulation.run`: cache
refresh, expiration, buffer flush, inventory snapshot, commit.  Runs
outside the `try` of the loop body, so its faults propagate. -/
def maintenance (s : SimState) : Except Fault SimState :=
  match log_inventory_snapshot
      (flushBuffer (expire_old_orders (update_cached_unfulfilled_orders s))) with
  | .error f => .error f
  | .ok s4 => .ok { s4 with commit_count := s4.commit_count + 1 }

/-- The four step event tags of `Simulation.run`
(`random.choices(["create_order", "fulfill_order", "restock", "idle"],
weights=[0.2, 0.65, 0.05, 0.1])`). -/
inductive EventTag where
  | createOrder
  | fulfillOrder
  | restock
  | idle
deriving DecidableEq, Repr

/-- The fixed selection weight of each event tag. -/
def eventWeight : EventTag → ℚ
  | .createOrder => 2/10
  | .fulfillOrder => 65/100
  | .restock => 5/100
  | .idle => 1/10

/-- Oracle data consumed by one loop step. -/
structure StepRand where
  minutes_rand : Nat
  event : EventTag
  create_rand : CreateRand
  fulfill_rand : FulfillRand
  restock_rand : RestockRand

/-- `Simulation.increment_time`: advance the clock by
`random.randint(1, 15)` minutes. -/
def increment_time (s : SimState) (m : Nat) : SimState :=
  { s with sim_time := s.sim_time + (1 + m % 15) }

/-- Dispatch of one selected event (the body of the `try` block);
`idle` dispatches nothing. -/
def dispatchEvent (ev : EventTag) (r : StepRand) (s : SimState) :
    Except Fault SimState :=
  match ev with
  | .createOrder => create_order s r.create_rand
  | .fulfillOrder => fulfill_order s r.fulfill_rand
  | .restock => restock_inventory s r.restock_rand
  | .idle => .ok s

/-- The error line printed by the `except` branch of `Simulation.run`. -/
def errorMessage (ev : EventTag) : String :=
  match ev with
  | .createOrder => "Error during create_order"
  | .fulfillOrder => "Error during fulfill_order"
  | .restock => "Error during restock"
  | .idle => "Error during idle"

/-- The `try`/`except` around the dispatched event: a fault is caught,
reported on the console, and the pre-dispatch state is kept. -/
def caughtDispatch (ev : EventTag) (r : StepRand) (s : SimState) :
    SimState :=
  match dispatchEvent ev r s with
  | .ok s1 => s1
  | .error _ => { s with console := s.console ++ [errorMessage ev] }

/-- Trace record of one executed loop step. -/
structure StepRecord where
  idx : Nat
  minutes : Nat
  maint : Bool
  event : EventTag
  caught_fault : Bool
deriving DecidableEq, Repr

/-- Whether an `Except` is a fault. -/
def isFault {α : Type} : Except Fault α → Bool
  | .error _ => true
  | .ok _ => false

/-- One iteration of the loop body of `Simulation.run` at index `i`:
advance time, run maintenance when `i % 100 == 0` (uncaught), then select
and dispatch one event inside the `try`. -/
def runStep (orac : Nat → StepRand) (i : Nat) (s : SimState) :
    Except Fault (SimState × StepRecord) :=
  let r := orac i
  let s1 := increment_time s r.minutes_rand
  match (if i % 100 = 0 then maintenance s1 else .ok s1 :
      Except Fault SimState) with
  | .error f => .error f
  | .ok s2 =>
    .ok (caughtDispatch r.event r s2,
      { idx := i
        minutes := 1 + r.minutes_rand % 15
        maint := i % 100 == 0
        event := r.event
        caught_fault := isFault (dispatchEvent r.event r s2) })

/-- Execute the loop body over a list of step indices, recording a trace;
an uncaught (maintenance) fault aborts and keeps the trace so far. -/
def runSteps (orac : Nat → StepRand) :
    List Nat → SimState → List StepRecord × Except Fault SimState
  | [], s => ([], .ok s)
  | i :: rest, s =>
    match runStep orac i s with
    | .error f => ([], .error f)
    | .ok (s1, r) =>
      let (tr, res) := runSteps orac rest s1
      (r :: tr, res)

/-- The epilogue after the loop: final commit and flush of the buffered
fulfillments into the persistent log (`export_logs` writes files only). -/
def finalFlush (s : SimState) : SimState :=
  { s with
    commit_count := s.commit_count + 1
    order_fulfillment_log := s.order_fulfillment_log ++ s.recent_fulfillments
    recent_fulfillments := [] }

/-- `Simulation.run`: `for i in range(1, iterations)` — the step indices
are `1, …, iterations - 1` — then the epilogue. -/
def run (orac : Nat → StepRand) (iterations : Nat) (s : SimState) :
    List StepRecord × Except Fault SimState :=
  match runSteps orac (List.range' 1 (iterations - 1)) s with
  | (tr, .error f) => (tr, .error f)
  | (tr, .ok s1) => (tr, .ok (finalFlush s1))

/-! ### Lemmas about the order status machine -/

theorem status_matches_spec (ls : List OrderItemRow) (hne : ls ≠ [])
    (age : Int) :
    statusFromLines ls age =
      specStatusOfCounts (zeroCount ls) (fullCount ls) (ls.length : Int)
        age 14 := by
  have hE : ls.isEmpty = false := by
    cases ls with
    | nil => exact absurd rfl hne
    | cons a t => rfl
  by_cases h1 : zeroCount ls = (ls.length : Int) <;>
  by_cases h2 : age ≥ 14 <;>
  by_cases h3 : fullCount ls = (ls.length : Int) <;>
  by_cases h4 : fullCount ls = 0 <;>
  simp [statusFromLines, computeStatus, specStatusOfCounts, sumZeroLines,
    sumFullLines, pyEqOptInt, hE, h1, h2, h3, h4]

theorem update_order_status_orders (s : SimState) (oid : Nat) (od : Int) :
    update_order_status s oid od =
      { s with orders := s.orders.map fun o =>
          if o.order_id == oid then
            { o with order_status :=
                statusFromLines (orderLines s oid) (dateOf s.sim_time - od) }
          else o } := rfl

/-- The per-row status write of `update_order_status`. -/
def setStatus (st : Status) (oid : Nat) (o : OrderRow) : OrderRow :=
  if o.order_id == oid then { o with order_status := st } else o

theorem setStatus_idem (st : Status) (oid : Nat) (o : OrderRow) :
    setStatus st oid (setStatus st oid o) = setStatus st oid o := by
  by_cases h : o.order_id == oid <;> simp [setStatus, h]

/-- Writing a fixed status to one order's row. -/
def writeStatus (s : SimState) (st : Status) (oid : Nat) : SimState :=
  { s with orders := s.orders.map (setStatus st oid) }

theorem update_order_status_eq_write (s : SimState) (oid : Nat) (od : Int) :
    update_order_status s oid od =
      writeStatus s
        (statusFromLines (orderLines s oid) (dateOf s.sim_time - od)) oid := rfl

theorem writeStatus_idem (s : SimState) (st : Status) (oid : Nat) :
    writeStatus (writeStatus s st oid) st oid = writeStatus s st oid := by
  simp only [writeStatus, List.map_map]
  congr 1
  apply List.map_congr_left
  intro o _
  exact setStatus_idem st oid o

theorem update_order_status_idem (s : SimState) (oid : Nat) (od : Int) :
    update_order_status (update_order_status s oid od) oid od =
      update_order_status s oid od :=
  writeStatus_idem s
    (statusFromLines (orderLines s oid) (dateOf s.sim_time - od)) oid

theorem statusFromLines_mem (ls : List OrderItemRow) (age : Int) :
    statusFromLines ls age ∈
      [Status.unfulfilled, Status.partFilled, Status.fulfilled,
       Status.partExpired, Status.expired] := by
  cases h : statusFromLines ls age <;> simp

/-! ### Concrete fixtures used by witnesses and counterexamples -/

/-- A fully fulfilled order line (3 of 3 units). -/
def lineFull : OrderItemRow :=
  { order_item_id := 1, order_id := 1, item_id := 1, supplier_id := 1,
    quantity := 3, fulfilled_quantity := 3, fulfilled_date := some 0 }

/-- An untouched order line (0 of 2 units). -/
def lineZero : OrderItemRow :=
  { order_item_id := 2, order_id := 1, item_id := 2, supplier_id := 1,
    quantity := 2, fulfilled_quantity := 0, fulfilled_date := none }

/-- A customer fixture. -/
def custA : Customer := { id := 1, name := "Acme Ltd", region := "North" }

/-- An item fixture with restock weight 5 (the spec's restock scenario). -/
def itemA : Item :=
  { id := 1, name := "Widget", category := "Hardware", unit_price := 10,
    failure_rate := 0, restock_weight := 5 }

/-- A supplier fixture with maximum capacity 40. -/
def supA : Supplier :=
  { id := 1, name := "SupplyCo", category := "Hardware", max_quantity := 40,
    failure_rate := 0, fulfillment_weight := 1 }

/-- An item fixture whose category no supplier serves. -/
def itemB : Item :=
  { id := 7, name := "Gizmo", category := "Food", unit_price := 1,
    failure_rate := 0, restock_weight := 1 }

/-! ### C1 -/

/-- C1: the order status computed by `update_order_status` is a pure
function of the line aggregate counts and the order age against the 14-day
threshold, and for nonempty line sets it follows exactly the spec's
precedence table (`specStatusOfCounts`); recomputation is idempotent, and
the result is always one of the five statuses. -/
theorem claim_C1 (ls : List OrderItemRow) (hne : ls ≠ []) (age : Int) :
    statusFromLines ls age =
      specStatusOfCounts (zeroCount ls) (fullCount ls) (ls.length : Int)
        age 14
    ∧ (∀ s oid od,
        update_order_status (update_order_status s oid od) oid od =
          update_order_status s oid od)
    ∧ statusFromLines ls age ∈
        [Status.unfulfilled, Status.partFilled, Status.fulfilled,
         Status.partExpired, Status.expired] :=
  ⟨status_matches_spec ls hne age,
   fun s oid od => update_order_status_idem s oid od,
   statusFromLines_mem ls age⟩

/-- C1 witness: the spec's scenario — two lines, one fully fulfilled, one
untouched, age 20 days (`partial-expired` by the table). -/
theorem claim_C1_witness :
    ([lineFull, lineZero] : List OrderItemRow) ≠ [] ∧
    (statusFromLines [lineFull, lineZero] 20 =
        specStatusOfCounts (zeroCount [lineFull, lineZero])
          (fullCount [lineFull, lineZero])
          (([lineFull, lineZero] : List OrderItemRow).length : Int) 20 14
      ∧ (∀ s oid od,
          update_order_status (update_order_status s oid od) oid od =
            update_order_status s oid od)
      ∧ statusFromLines [lineFull, lineZero] 20 ∈
          [Status.unfulfilled, Status.partFilled, Status.fulfilled,
           Status.partExpired, Status.expired]) :=
  ⟨by decide, claim_C1 [lineFull, lineZero] (by decide) 20⟩

/-! ### C10 -/

theorem foldl_createOrderLine_skip (oid : Nat) (ps : List CreatePick) :
    ∀ st : SimState, (∀ p ∈ ps, eligibleSuppliers st p.item.id = []) →
      ps.foldl (createOrderLine oid) st = st := by
  induction ps with
  | nil => intro st _; rfl
  | cons p rest ih =>
    intro st h
    have hp := h p (List.mem_cons_self p rest)
    have hline : createOrderLine oid st p = st := by
      simp [createOrderLine, hp, pickFrom]
    rw [List.foldl_cons, hline]
    exact ih st fun q hq => h q (List.mem_cons_of_mem p hq)

/-- C10: when every sampled item of a create-order event has an empty
eligible-supplier list, the order row is still inserted (status
`unfulfilled`, zero lines, `ORDER_ITEMS` untouched), and recomputing the
status of a zero-line order before the 14-day threshold yields `partial`
(NULL aggregates make every earlier branch false), not `unfulfilled`. -/
theorem claim_C10 (s : SimState) (r : CreateRand) (cust : Customer)
    (hc : pickFrom (s.customers.map (·.2)) r.customer_idx = some cust)
    (hskip : ∀ p ∈ r.picks, eligibleSuppliers s p.item.id = [])
    (age : Int) (hage : age < 14) :
    create_order s r = .ok { s with
      orders := s.orders ++
        [{ order_id := s.next_order_id, customer_id := cust.id,
           order_date := dateOf s.sim_time, order_status := .unfulfilled }]
      next_order_id := s.next_order_id + 1 }
    ∧ statusFromLines [] age = Status.partFilled
    ∧ statusFromLines [] age ≠ Status.unfulfilled := by
  have hna : ¬ (age ≥ 14) := not_le.mpr hage
  have hstat : statusFromLines [] age = Status.partFilled := by
    simp [statusFromLines, computeStatus, sumZeroLines, sumFullLines,
      pyEqOptInt, hna]
  refine ⟨?_, hstat, by rw [hstat]; simp⟩
  simp only [create_order, hc]
  congr 1
  exact foldl_createOrderLine_skip s.next_order_id r.picks _
    fun p hp => hskip p hp

/-- The state for the C10 witness: one item whose category no supplier
serves, so its eligible-supplier list is empty. -/
def stateNoSup : SimState :=
  { suppliers := [], items := [(7, itemB)], customers := [(1, custA)],
    supplier_items := [], sim_time := 0, orders := [], order_items := [],
    inventory := [], next_order_id := 1, next_order_item_id := 1,
    inventory_history := [], order_fulfillment_log := [],
    recent_fulfillments := [], cached_unfulfilled_orders := [],
    commit_count := 0, console := [] }

/-- The create-order oracle for the C10 witness: one sampled item, no
eligible supplier. -/
def randNoSup : CreateRand :=
  { customer_idx := 0, picks := [{ item := itemB, supplier_idx := 0, qty_rand := 0 }] }

/-- C10 witness: at the concrete no-eligible-supplier state the order is
created with zero lines and a 5-day-old zero-line order reads `partial`. -/
theorem claim_C10_witness :
    pickFrom (stateNoSup.customers.map (·.2)) randNoSup.customer_idx =
        some custA ∧
    (∀ p ∈ randNoSup.picks, eligibleSuppliers stateNoSup p.item.id = []) ∧
    (5 : Int) < 14 ∧
    (create_order stateNoSup randNoSup = .ok { stateNoSup with
        orders := stateNoSup.orders ++
          [{ order_id := stateNoSup.next_order_id, customer_id := custA.id,
             order_date := dateOf stateNoSup.sim_time,
             order_status := .unfulfilled }]
        next_order_id := stateNoSup.next_order_id + 1 }
      ∧ statusFromLines [] 5 = Status.partFilled
      ∧ statusFromLines [] 5 ≠ Status.unfulfilled) := by
  have hskip : ∀ p ∈ randNoSup.picks,
      eligibleSuppliers stateNoSup p.item.id = [] := by
    intro p hp
    simp only [randNoSup, List.mem_singleton] at hp
    subst hp
    rfl
  exact ⟨rfl, hskip, by decide,
    claim_C10 stateNoSup randNoSup custA rfl hskip 5 (by decide)⟩

/-! ### C4 and C6: failure outcomes of `_attempt_fulfillment` -/

/-- The initial `result_data` dict of `_attempt_fulfillment`. -/
def baseResult (s : SimState) (oid iid sid : Nat) (q fq : Int) : ResultData :=
  { order_id := oid, item_id := iid, supplier_id := sid,
    requested_qty := q, previously_fulfilled := fq, newly_fulfilled := 0,
    success := false, failure_reason := none, timestamp := s.sim_time }

/-- C4: each failing fulfillment attempt — `unreliable_supplier` (draw
below the combined failure probability), `no_inventory_entry` (missing
inventory row), `stockout` (zero on hand) — returns a structured outcome
(`Except.ok` with `success = false` and the reason), and leaves the whole
state (inventory, lines, order statuses) unchanged. -/
theorem claim_C4 (s : SimState) (oid olid iid sid : Nat) (q fq : Int)
    (draw : ℚ) (item : Item) (supplier : Supplier)
    (hi : s.items.lookup iid = some item)
    (hs : s.suppliers.lookup sid = some supplier) :
    (draw < supplier.failure_rate + item.failure_rate →
      _attempt_fulfillment s oid olid iid sid q fq draw =
        .ok (s, { baseResult s oid iid sid q fq with
                  failure_reason := some "unreliable_supplier" }))
    ∧ (¬ draw < supplier.failure_rate + item.failure_rate →
        lookupInventory s iid sid = none →
        _attempt_fulfillment s oid olid iid sid q fq draw =
          .ok (s, { baseResult s oid iid sid q fq with
                    failure_reason := some "no_inventory_entry" }))
    ∧ (∀ row : InventoryRow,
        ¬ draw < supplier.failure_rate + item.failure_rate →
        lookupInventory s iid sid = some row →
        row.quantity_on_hand = 0 →
        _attempt_fulfillment s oid olid iid sid q fq draw =
          .ok (s, { baseResult s oid iid sid q fq with
                    failure_reason := some "stockout" })) := by
  refine ⟨?_, ?_, ?_⟩
  · intro hd
    simp [_attempt_fulfillment, baseResult, hi, hs, hd]
  · intro hd hrow
    simp [_attempt_fulfillment, baseResult, hi, hs, hd, hrow]
  · intro row hd hrow hq
    simp [_attempt_fulfillment, baseResult, hi, hs, hd, hrow, hq]

/-- C6: an attempt yields reason `unreliable_supplier` exactly when the
draw is strictly below the uncapped sum of the supplier and item failure
rates; whenever that sum exceeds 1, every draw in `[0, 1)` fails that
way. -/
theorem claim_C6 (s : SimState) (oid olid iid sid : Nat) (q fq : Int)
    (draw : ℚ) (item : Item) (supplier : Supplier)
    (hi : s.items.lookup iid = some item)
    (hs : s.suppliers.lookup sid = some supplier) :
    (draw < supplier.failure_rate + item.failure_rate ↔
      _attempt_fulfillment s oid olid iid sid q fq draw =
        .ok (s, { baseResult s oid iid sid q fq with
                  failure_reason := some "unreliable_supplier" }))
    ∧ (0 ≤ draw → draw < 1 →
        1 < supplier.failure_rate + item.failure_rate →
        _attempt_fulfillment s oid olid iid sid q fq draw =
          .ok (s, { baseResult s oid iid sid q fq with
                    failure_reason := some "unreliable_supplier" })) := by
  have hfwd : draw < supplier.failure_rate + item.failure_rate →
      _attempt_fulfillment s oid olid iid sid q fq draw =
        .ok (s, { baseResult s oid iid sid q fq with
                  failure_reason := some "unreliable_supplier" }) := by
    intro hd
    simp [_attempt_fulfillment, baseResult, hi, hs, hd]
  constructor
  · constructor
    · exact hfwd
    · intro heq
      by_cases hd : draw < supplier.failure_rate + item.failure_rate
      · exact hd
      · exfalso
        cases hrow : lookupInventory s iid sid with
        | none =>
          simp [_attempt_fulfillment, baseResult, hi, hs, hd, hrow] at heq
        | some row =>
          by_cases hq : row.quantity_on_hand = 0
          · simp [_attempt_fulfillment, baseResult, hi, hs, hd, hrow, hq]
              at heq
          · simp [_attempt_fulfillment, baseResult, hi, hs, hd, hrow, hq]
              at heq
  · intro _ h1 hsum
    exact hfwd (lt_trans h1 hsum)

/-- An item fixture with failure rate 1 (combined rate above 1). -/
def itemC : Item :=
  { id := 2, name := "Flaky", category := "Food", unit_price := 1,
    failure_rate := 1, restock_weight := 1 }

/-- A supplier fixture with failure rate 1 (combined rate above 1). -/
def supC : Supplier :=
  { id := 2, name := "FlakyCo", category := "Food", max_quantity := 40,
    failure_rate := 1, fulfillment_weight := 1 }

/-- An inventory row fixture with zero units on hand. -/
def rowEmpty : InventoryRow :=
  { item_id := 1, supplier_id := 1, quantity_on_hand := 0,
    reorder_point := 5, last_updated := none }

/-- An order row fixture. -/
def orderA : OrderRow :=
  { order_id := 1, customer_id := 1, order_date := 0,
    order_status := .unfulfilled }

/-- The state for the C4 witness: a reliable pair with an inventory row at
zero on hand. -/
def stateStockout : SimState :=
  { suppliers := [(1, supA)], items := [(1, itemA)], customers := [(1, custA)],
    supplier_items := [(1, [1])], sim_time := 0,
    orders := [orderA],
    order_items := [lineZero], inventory := [rowEmpty],
    next_order_id := 2, next_order_item_id := 3, inventory_history := [],
    order_fulfillment_log := [], recent_fulfillments := [],
    cached_unfulfilled_orders := [1], commit_count := 0, console := [] }

/-- C4 witness: the spec's stockout scenario — zero on hand, reliable
draw — produces `success=false, failure_reason=stockout` and no mutation. -/
theorem claim_C4_witness :
    stateStockout.items.lookup 1 = some itemA ∧
    stateStockout.suppliers.lookup 1 = some supA ∧
    ¬ (0 : ℚ) < supA.failure_rate + itemA.failure_rate ∧
    lookupInventory stateStockout 1 1 = some rowEmpty ∧
    rowEmpty.quantity_on_hand = 0 ∧
    _attempt_fulfillment stateStockout 1 2 1 1 2 0 0 =
      .ok (stateStockout,
        { baseResult stateStockout 1 1 1 2 0 with
          failure_reason := some "stockout" }) := by
  have hd : ¬ (0 : ℚ) < supA.failure_rate + itemA.failure_rate := by
    simp [supA, itemA]
  exact ⟨rfl, rfl, hd, rfl, rfl,
    (claim_C4 stateStockout 1 2 1 1 2 0 0 itemA supA rfl rfl).2.2
      rowEmpty hd rfl rfl⟩

/-- The state for the C6 witness: combined failure rate 2 (above 1). -/
def stateUnreliable : SimState :=
  { stateStockout with suppliers := [(2, supC)], items := [(2, itemC)] }

/-- C6 witness: with combined failure rate `1 + 1 = 2 > 1`, the draw `0`
(in `[0,1)`) fails with `unreliable_supplier`. -/
theorem claim_C6_witness :
    stateUnreliable.items.lookup 2 = some itemC ∧
    stateUnreliable.suppliers.lookup 2 = some supC ∧
    (0 : ℚ) ≤ 0 ∧ (0 : ℚ) < 1 ∧
    1 < supC.failure_rate + itemC.failure_rate ∧
    _attempt_fulfillment stateUnreliable 1 2 2 2 2 0 0 =
      .ok (stateUnreliable,
        { baseResult stateUnreliable 1 2 2 2 0 with
          failure_reason := some "unreliable_supplier" }) := by
  have hsum : (1 : ℚ) < supC.failure_rate + itemC.failure_rate := by
    norm_num [supC, itemC]
  exact ⟨rfl, rfl, le_refl 0, by norm_num, hsum,
    (claim_C6 stateUnreliable 1 2 2 2 2 0 0 itemC supC rfl rfl).2
      (le_refl 0) (by norm_num) hsum⟩

/-! ### C5: the restocking policy -/

theorem pyInt_nonneg (q : ℚ) (hq : 0 ≤ q) : 0 ≤ pyInt q :=
  Int.tdiv_nonneg (Rat.num_nonneg.mpr hq) (Int.ofNat_nonneg q.den)

/-- C5: with no low-stock row, `restock_inventory` is a no-op; otherwise
the (oracle-)selected low-stock row is incremented by exactly
`min(int(10 * restock_weight), max_quantity - on_hand)` and all other rows
are untouched; the amount is 2 (not 50) for weight 5, on-hand 38, max 40,
and it is 0 at capacity — a valid silent no-op. -/
theorem claim_C5 (s : SimState) (r : RestockRand) :
    (lowStockRows s = [] → restock_inventory s r = .ok s)
    ∧ (∀ (chosen : InventoryRow) (item : Item) (supplier : Supplier)
        (ws : List ℚ),
        pickFrom (lowStockRows s) r.chosen_idx = some chosen →
        weightsOf s ((lowStockRows s).map (·.item_id)) = .ok ws →
        s.items.lookup chosen.item_id = some item →
        s.suppliers.lookup chosen.supplier_id = some supplier →
        lookupInventory s chosen.item_id chosen.supplier_id = some chosen →
        restock_inventory s r = .ok { s with
          inventory := s.inventory.map fun rw =>
            if rw.item_id == chosen.item_id &&
                rw.supplier_id == chosen.supplier_id then
              { rw with
                quantity_on_hand := rw.quantity_on_hand +
                  restockAmount item.restock_weight supplier.max_quantity
                    chosen.quantity_on_hand
                last_updated := some (dateOf s.sim_time) }
            else rw })
    ∧ restockAmount 5 40 38 = 2
    ∧ (∀ (w : ℚ) (max_qty : Int), 0 ≤ w →
        restockAmount w max_qty max_qty = 0) := by
  refine ⟨?_, ?_, ?_, ?_⟩
  · intro h
    simp [restock_inventory, h]
  · intro chosen item supplier ws hpick hws hitem hsup hlook
    have hne : (lowStockRows s).isEmpty = false := by
      cases hc : lowStockRows s with
      | nil => rw [hc] at hpick; simp [pickFrom] at hpick
      | cons a t => rfl
    simp [restock_inventory, hne, hws, hpick, hitem, hsup, hlook]
  · have h10 : ((10 : ℚ) * 5) = ((50 : Int) : ℚ) := by norm_num
    have : pyInt ((10 : ℚ) * 5) = 50 := by
      rw [pyInt, h10, Rat.num_intCast, Rat.den_intCast]
      decide
    simp [restockAmount, this]
  · intro w max_qty hw
    have h0 : 0 ≤ pyInt (10 * w) := pyInt_nonneg _ (mul_nonneg (by norm_num) hw)
    simp [restockAmount, min_eq_right h0]

/-- An inventory row fixture at 38 on hand with reorder point 38. -/
def rowLow : InventoryRow :=
  { item_id := 1, supplier_id := 1, quantity_on_hand := 38,
    reorder_point := 38, last_updated := none }

/-- The state for the C5 witness: the spec's restock scenario — one
low-stock row at 38 on hand, reorder point 38, item weight 5, supplier
capacity 40. -/
def stateRestock : SimState :=
  { suppliers := [(1, supA)], items := [(1, itemA)], customers := [(1, custA)],
    supplier_items := [(1, [1])], sim_time := 0, orders := [],
    order_items := [], inventory := [rowLow],
    next_order_id := 1, next_order_item_id := 1, inventory_history := [],
    order_fulfillment_log := [], recent_fulfillments := [],
    cached_unfulfilled_orders := [], commit_count := 0, console := [] }

/-- C5 witness: the scenario row is replenished by exactly
`restockAmount 5 40 38 = 2`. -/
theorem claim_C5_witness :
    pickFrom (lowStockRows stateRestock) 0 = some rowLow ∧
    weightsOf stateRestock ((lowStockRows stateRestock).map (·.item_id)) =
      .ok [itemA.restock_weight] ∧
    stateRestock.items.lookup rowLow.item_id = some itemA ∧
    stateRestock.suppliers.lookup rowLow.supplier_id = some supA ∧
    lookupInventory stateRestock rowLow.item_id rowLow.supplier_id =
      some rowLow ∧
    (restock_inventory stateRestock { chosen_idx := 0 } = .ok
      { stateRestock with
        inventory := stateRestock.inventory.map fun rw =>
          if rw.item_id == rowLow.item_id &&
              rw.supplier_id == rowLow.supplier_id then
            { rw with
              quantity_on_hand := rw.quantity_on_hand +
                restockAmount itemA.restock_weight supA.max_quantity
                  rowLow.quantity_on_hand
              last_updated := some (dateOf stateRestock.sim_time) }
          else rw }
      ∧ restockAmount 5 40 38 = 2) := by
  refine ⟨rfl, rfl, rfl, rfl, rfl, ?_, (claim_C5 stateRestock ⟨0⟩).2.2.1⟩
  exact (claim_C5 stateRestock ⟨0⟩).2.1 rowLow itemA supA
    [itemA.restock_weight] rfl rfl rfl rfl rfl

/-! ### C9: fulfill-order no-op paths -/

/-- C9: a fulfill-order event with an empty unfulfilled-order cache is a
fault-free no-op; if the selected order has no line with fulfilled
quantity below requested quantity, it is likewise a no-op; otherwise any
candidate line can be the one picked (the oracle index selects it). -/
theorem claim_C9 (s : SimState) (r : FulfillRand) :
    (s.cached_unfulfilled_orders = [] → fulfill_order s r = .ok s)
    ∧ (∀ oid : Nat,
        _select_random_unfulfilled_order s r.order_idx = some oid →
        unfulfilledCandidates s oid = [] → fulfill_order s r = .ok s)
    ∧ (∀ oid : Nat, ∀ j : Nat, j < (unfulfilledCandidates s oid).length →
        _get_random_unfulfilled_item s oid j =
          (unfulfilledCandidates s oid)[j]?) := by
  refine ⟨?_, ?_, ?_⟩
  · intro h
    simp [fulfill_order, _select_random_unfulfilled_order, h, pyFalsyOpt]
  · intro oid hsel hcand
    by_cases hz : pyFalsyOpt (some oid) = true
    · simp [fulfill_order, hsel, hz]
    · simp [fulfill_order, hsel, hz, _get_random_unfulfilled_item, hcand]
  · intro oid j hj
    unfold _get_random_unfulfilled_item
    cases hc : unfulfilledCandidates s oid with
    | nil => rw [hc] at hj; simp at hj
    | cons a t =>
      rw [hc] at hj
      simp only [pickFrom]
      rw [Nat.mod_eq_of_lt hj]

/-- C9 witness: at the concrete empty-cache state the fulfill-order event
returns the state unchanged and raises nothing. -/
theorem claim_C9_witness :
    stateNoSup.cached_unfulfilled_orders = [] ∧
    fulfill_order stateNoSup { order_idx := 0, line_idx := 0, draw := 0 } =
      .ok stateNoSup :=
  ⟨rfl, (claim_C9 stateNoSup
    { order_idx := 0, line_idx := 0, draw := 0 }).1 rfl⟩

/-! ### State invariants for C2 and C3 -/

theorem lookup_mem {α : Type} {l : List (Nat × α)} {k : Nat} {v : α} :
    l.lookup k = some v → (k, v) ∈ l := by
  induction l with
  | nil => intro h; simp [List.lookup] at h
  | cons p t ih =>
    intro h
    obtain ⟨kk, vv⟩ := p
    rw [List.lookup] at h
    split at h
    · cases h
      rename_i hbeq
      have hkk : k = kk := eq_of_beq hbeq
      subst hkk
      exact List.mem_cons_self _ _
    · exact List.mem_cons_of_mem _ (ih h)

/-- Non-negativity of the immutable entity parameters (the generator draws
capacities and restock weights positive). -/
def entitiesOK (s : SimState) : Prop :=
  (∀ p ∈ s.suppliers, 0 ≤ p.2.max_quantity) ∧
  (∀ p ∈ s.items, 0 ≤ p.2.restock_weight)

/-- C2's invariant: `0 ≤ FULFILLED_QUANTITY ≤ QUANTITY` on every line. -/
def lineBound (s : SimState) : Prop :=
  ∀ l ∈ s.order_items,
    0 ≤ l.fulfilled_quantity ∧ l.fulfilled_quantity ≤ l.quantity

/-- C3's invariant: `QUANTITY_ON_HAND ≥ 0` on every inventory row. -/
def invNonneg (s : SimState) : Prop :=
  ∀ rw ∈ s.inventory, 0 ≤ rw.quantity_on_hand

/-- `ORDER_ITEM_ID` is a primary key. -/
def lineIdsNodup (s : SimState) : Prop :=
  (s.order_items.map (·.order_item_id)).Nodup

/-- The serial `ORDER_ITEM_ID` counter is ahead of every existing line. -/
def lineIdsFresh (s : SimState) : Prop :=
  ∀ l ∈ s.order_items, l.order_item_id < s.next_order_item_id

/-- `(ITEM_ID, SUPPLIER_ID)` is the `INVENTORY` key. -/
def invKeysNodup (s : SimState) : Prop :=
  (s.inventory.map fun rw => (rw.item_id, rw.supplier_id)).Nodup

/-- The conjunction of all state invariants preserved by the engine. -/
def Inv (s : SimState) : Prop :=
  entitiesOK s ∧ lineBound s ∧ invNonneg s ∧ lineIdsNodup s ∧
    lineIdsFresh s ∧ invKeysNodup s

theorem Inv_congr {s s' : SimState}
    (h1 : s'.suppliers = s.suppliers) (h2 : s'.items = s.items)
    (h3 : s'.order_items = s.order_items) (h4 : s'.inventory = s.inventory)
    (h5 : s'.next_order_item_id = s.next_order_item_id) :
    Inv s → Inv s' := by
  intro hs
  simp only [Inv, entitiesOK, lineBound, invNonneg, lineIdsNodup,
    lineIdsFresh, invKeysNodup, h1, h2, h3, h4, h5]
  exact hs

theorem Inv_update_order_status (s : SimState) (oid : Nat) (od : Int)
    (h : Inv s) : Inv (update_order_status s oid od) :=
  Inv_congr rfl rfl rfl rfl rfl h

theorem Inv_foldl_update (rows : List (Nat × Int)) :
    ∀ s : SimState, Inv s →
      Inv (rows.foldl (fun st p => update_order_status st p.1 p.2) s) := by
  induction rows with
  | nil => intro s h; exact h
  | cons p t ih =>
    intro s h
    rw [List.foldl_cons]
    exact ih _ (Inv_update_order_status _ _ _ h)

theorem Inv_expire_old_orders (s : SimState) (h : Inv s) :
    Inv (expire_old_orders s) :=
  Inv_foldl_update _ s h

theorem Inv_update_cached (s : SimState) (h : Inv s) :
    Inv (update_cached_unfulfilled_orders s) :=
  Inv_congr rfl rfl rfl rfl rfl h

theorem Inv_increment_time (s : SimState) (m : Nat) (h : Inv s) :
    Inv (increment_time s m) :=
  Inv_congr rfl rfl rfl rfl rfl h

theorem snapshotRows_fields (rows : List InventoryRow) :
    ∀ s s' : SimState, snapshotRows s rows = .ok s' →
      s'.suppliers = s.suppliers ∧ s'.items = s.items ∧
      s'.order_items = s.order_items ∧ s'.inventory = s.inventory ∧
      s'.next_order_item_id = s.next_order_item_id := by
  induction rows with
  | nil =>
    intro s s' h
    cases h
    exact ⟨rfl, rfl, rfl, rfl, rfl⟩
  | cons rw rest ih =>
    intro s s' h
    unfold snapshotRows at h
    split at h
    · cases h
    · split at h
      · cases h
      · obtain ⟨g1, g2, g3, g4, g5⟩ := ih _ _ h
        exact ⟨g1, g2, g3, g4, g5⟩

theorem Inv_flushBuffer (s : SimState) (h : Inv s) : Inv (flushBuffer s) :=
  Inv_congr rfl rfl rfl rfl rfl h

theorem line_eq_of_id {s : SimState} (hnd : lineIdsNodup s)
    {a b : OrderItemRow} (ha : a ∈ s.order_items) (hb : b ∈ s.order_items)
    (h : a.order_item_id = b.order_item_id) : a = b :=
  List.inj_on_of_nodup_map hnd ha hb h

theorem inv_row_eq {s : SimState} (hkd : invKeysNodup s)
    {a b : InventoryRow} (ha : a ∈ s.inventory) (hb : b ∈ s.inventory)
    (h1 : a.item_id = b.item_id) (h2 : a.supplier_id = b.supplier_id) :
    a = b :=
  List.inj_on_of_nodup_map hkd ha hb (by rw [h1, h2])

theorem map_proj_lines (g : OrderItemRow → OrderItemRow)
    (hg : ∀ l, (g l).order_item_id = l.order_item_id)
    (ls : List OrderItemRow) :
    (ls.map g).map (·.order_item_id) = ls.map (·.order_item_id) := by
  rw [List.map_map]
  apply List.map_congr_left
  intro l _
  exact hg l

theorem map_proj_rows (g : InventoryRow → InventoryRow)
    (hg : ∀ rw, (g rw).item_id = rw.item_id ∧
      (g rw).supplier_id = rw.supplier_id) (ls : List InventoryRow) :
    (ls.map g).map (fun rw => (rw.item_id, rw.supplier_id)) =
      ls.map (fun rw => (rw.item_id, rw.supplier_id)) := by
  rw [List.map_map]
  apply List.map_congr_left
  intro rw _
  have := hg rw
  simp [Function.comp, this.1, this.2]

theorem pickFrom_mem {α : Type} {l : List α} {i : Nat} {a : α}
    (h : pickFrom l i = some a) : a ∈ l := by
  unfold pickFrom at h
  exact List.getElem?_mem h

theorem get_random_item_mem {s : SimState} {oid idx : Nat}
    {cand : OrderItemRow}
    (h : _get_random_unfulfilled_item s oid idx = some cand) :
    cand ∈ s.order_items ∧ cand.order_id = oid ∧
      cand.fulfilled_quantity < cand.quantity := by
  unfold _get_random_unfulfilled_item at h
  split at h
  · cases h
  · have hm : cand ∈ unfulfilledCandidates s oid := pickFrom_mem h
    have := List.mem_filter.mp hm
    refine ⟨this.1, ?_, ?_⟩
    · have hb := this.2
      rw [Bool.and_eq_true] at hb
      exact eq_of_beq hb.1
    · have hb := this.2
      rw [Bool.and_eq_true] at hb
      exact of_decide_eq_true hb.2

/-- Case analysis of a non-raising `_attempt_fulfillment`: it is either a
no-op failure or the `fulfillApply`/status-update success. -/
theorem attempt_shape {s s1 : SimState} {res : ResultData}
    {oid olid iid sid : Nat} {q fq : Int} {draw : ℚ}
    (h : _attempt_fulfillment s oid olid iid sid q fq draw = .ok (s1, res)) :
    s1 = s ∨ ∃ row : InventoryRow,
      lookupInventory s iid sid = some row ∧
      s1 = update_order_status
        (fulfillApply s iid sid olid (min row.quantity_on_hand (q - fq)))
        oid (dateOf s.sim_time) := by
  unfold _attempt_fulfillment at h
  split at h
  case h_2 => cases h
  case h_1 item supplier _ _ =>
    split at h
    · rw [Except.ok.injEq, Prod.mk.injEq] at h
      exact Or.inl h.1.symm
    · split at h
      · rw [Except.ok.injEq, Prod.mk.injEq] at h
        exact Or.inl h.1.symm
      · rename_i row hrow
        split at h
        · rw [Except.ok.injEq, Prod.mk.injEq] at h
          exact Or.inl h.1.symm
        · rw [Except.ok.injEq, Prod.mk.injEq] at h
          exact Or.inr ⟨row, hrow, h.1.symm⟩

/-- Case analysis of a non-raising `fulfill_order`. -/
theorem fulfill_order_shape {s s' : SimState} {r : FulfillRand}
    (h : fulfill_order s r = .ok s') :
    s' = s ∨ ∃ (oid : Nat) (cand : OrderItemRow) (s1 : SimState)
      (res : ResultData),
      _get_random_unfulfilled_item s oid r.line_idx = some cand ∧
      _attempt_fulfillment s oid cand.order_item_id cand.item_id
        cand.supplier_id cand.quantity cand.fulfilled_quantity r.draw =
        .ok (s1, res) ∧
      s' = { s1 with
             recent_fulfillments := s1.recent_fulfillments ++ [res] } := by
  simp only [fulfill_order] at h
  split at h
  · rw [Except.ok.injEq] at h
    exact Or.inl h.symm
  · split at h
    · rw [Except.ok.injEq] at h
      exact Or.inl h.symm
    · rename_i oid _
      split at h
      · rw [Except.ok.injEq] at h
        exact Or.inl h.symm
      · rename_i cand hcand
        split at h
        · cases h
        · rename_i s1 result hcall
          rw [Except.ok.injEq] at h
          exact Or.inr ⟨oid, cand, s1, result, hcand, hcall, h.symm⟩

/-- Case analysis of a non-raising `restock_inventory`. -/
theorem restock_shape {s s' : SimState} {r : RestockRand}
    (h : restock_inventory s r = .ok s') :
    s' = s ∨ ∃ (chosen : InventoryRow) (item : Item) (supplier : Supplier)
      (row : InventoryRow),
      s.items.lookup chosen.item_id = some item ∧
      s.suppliers.lookup chosen.supplier_id = some supplier ∧
      lookupInventory s chosen.item_id chosen.supplier_id = some row ∧
      s' = { s with inventory := s.inventory.map fun rw =>
        if rw.item_id == chosen.item_id &&
            rw.supplier_id == chosen.supplier_id then
          { rw with
            quantity_on_hand := rw.quantity_on_hand +
              restockAmount item.restock_weight supplier.max_quantity
                row.quantity_on_hand
            last_updated := some (dateOf s.sim_time) }
        else rw } := by
  simp only [restock_inventory] at h
  split at h
  · rw [Except.ok.injEq] at h
    exact Or.inl h.symm
  · split at h
    · cases h
    · split at h
      · rw [Except.ok.injEq] at h
        exact Or.inl h.symm
      · rename_i chosen hchosen
        split at h
        · cases h
        · rename_i item hitem
          split at h
          · cases h
          · rename_i supplier hsup
            split at h
            · cases h
            · rename_i row hrow
              rw [Except.ok.injEq] at h
              exact Or.inr ⟨chosen, item, supplier, row, hitem, hsup, hrow,
                h.symm⟩

theorem Inv_maintenance {s s' : SimState} (h : maintenance s = .ok s')
    (hs : Inv s) : Inv s' := by
  unfold maintenance at h
  split at h
  · cases h
  · rename_i s4 hsnap
    cases h
    have h3 : Inv
        (flushBuffer (expire_old_orders (update_cached_unfulfilled_orders s))) :=
      Inv_flushBuffer _ (Inv_expire_old_orders _ (Inv_update_cached s hs))
    obtain ⟨f1, f2, f3, f4, f5⟩ := snapshotRows_fields _ _ _ hsnap
    exact Inv_congr rfl rfl rfl rfl rfl (Inv_congr f1 f2 f3 f4 f5 h3)

theorem Inv_createOrderLine (oid : Nat) (st : SimState) (p : CreatePick)
    (h : Inv st) : Inv (createOrderLine oid st p) := by
  unfold createOrderLine
  cases hp : pickFrom (eligibleSuppliers st p.item.id) p.supplier_idx with
  | none => exact h
  | some sid =>
    obtain ⟨hent, hlb, hinv, hnd, hfr, hkd⟩ := h
    refine ⟨hent, ?_, hinv, ?_, ?_, hkd⟩
    · intro l hl
      rcases List.mem_append.mp hl with hl | hl
      · exact hlb l hl
      · rw [List.mem_singleton] at hl
        subst hl
        exact ⟨le_refl 0, Int.natCast_nonneg _⟩
    · simp only [lineIdsNodup]
      rw [List.map_append, List.nodup_append]
      refine ⟨hnd, List.nodup_singleton _, ?_⟩
      intro a ha hb
      rw [List.map_singleton, List.mem_singleton] at hb
      have hb' : a = st.next_order_item_id := hb
      rcases List.mem_map.mp ha with ⟨l, hlmem, hlid⟩
      have := hfr l hlmem
      omega
    · intro l hl
      rcases List.mem_append.mp hl with hl | hl
      · have := hfr l hl
        show l.order_item_id < st.next_order_item_id + 1
        omega
      · rw [List.mem_singleton] at hl
        subst hl
        exact Nat.lt_succ_self _

theorem Inv_foldl_createOrderLine (oid : Nat) (ps : List CreatePick) :
    ∀ st : SimState, Inv st → Inv (ps.foldl (createOrderLine oid) st) := by
  induction ps with
  | nil => intro st h; exact h
  | cons p t ih =>
    intro st h
    rw [List.foldl_cons]
    exact ih _ (Inv_createOrderLine oid st p h)

theorem Inv_create_order {s s' : SimState} {r : CreateRand}
    (h : create_order s r = .ok s') (hs : Inv s) : Inv s' := by
  unfold create_order at h
  split at h
  · cases h
  · rw [Except.ok.injEq] at h
    subst h
    exact Inv_foldl_createOrderLine _ _ _ (Inv_congr rfl rfl rfl rfl rfl hs)

theorem createOrderLine_lines (oid : Nat) (st : SimState) (p : CreatePick) :
    ∀ l ∈ (createOrderLine oid st p).order_items,
      l ∈ st.order_items ∨ l.fulfilled_quantity = 0 := by
  simp only [createOrderLine]
  cases pickFrom (eligibleSuppliers st p.item.id) p.supplier_idx with
  | none => intro l hl; exact Or.inl hl
  | some sid =>
    intro l hl
    rcases List.mem_append.mp hl with hl | hl
    · exact Or.inl hl
    · rw [List.mem_singleton] at hl
      subst hl
      exact Or.inr rfl

theorem foldl_createOrderLine_lines (oid : Nat) (ps : List CreatePick) :
    ∀ st : SimState, ∀ l ∈ (ps.foldl (createOrderLine oid) st).order_items,
      l ∈ st.order_items ∨ l.fulfilled_quantity = 0 := by
  induction ps with
  | nil => intro st l hl; exact Or.inl hl
  | cons p t ih =>
    intro st l hl
    rw [List.foldl_cons] at hl
    rcases ih _ l hl with h | h
    · exact createOrderLine_lines oid st p l h
    · exact Or.inr h

theorem create_order_lines {s s' : SimState} {r : CreateRand}
    (h : create_order s r = .ok s') :
    ∀ l ∈ s'.order_items, l ∈ s.order_items ∨ l.fulfilled_quantity = 0 := by
  unfold create_order at h
  split at h
  · cases h
  · rw [Except.ok.injEq] at h
    subst h
    intro l hl
    rcases foldl_createOrderLine_lines _ _ _ l hl with hin | hz
    · exact Or.inl hin
    · exact Or.inr hz

/-- The monotone-lines relation of C2: every line persists with the same
id and requested quantity and a non-decreasing fulfilled quantity. -/
def linesMono (s s' : SimState) : Prop :=
  ∀ l ∈ s.order_items, ∃ l' ∈ s'.order_items,
    l'.order_item_id = l.order_item_id ∧
    l.fulfilled_quantity ≤ l'.fulfilled_quantity ∧ l'.quantity = l.quantity

theorem linesMono_of_eq {s s' : SimState}
    (h : s'.order_items = s.order_items) : linesMono s s' := by
  intro l hl
  exact ⟨l, by rw [h]; exact hl, rfl, le_refl _, rfl⟩

theorem linesMono_trans {a b c : SimState} (h1 : linesMono a b)
    (h2 : linesMono b c) : linesMono a c := by
  intro l hl
  obtain ⟨m, hm, hid, hle, hq⟩ := h1 l hl
  obtain ⟨n, hn, hid2, hle2, hq2⟩ := h2 m hm
  exact ⟨n, hn, by rw [hid2, hid], le_trans hle hle2, by rw [hq2, hq]⟩

theorem mem_createOrderLine (oid : Nat) (st : SimState) (p : CreatePick) :
    ∀ l ∈ st.order_items, l ∈ (createOrderLine oid st p).order_items := by
  intro l hl
  simp only [createOrderLine]
  cases pickFrom (eligibleSuppliers st p.item.id) p.supplier_idx with
  | none => exact hl
  | some sid => exact List.mem_append_left _ hl

theorem mem_foldl_createOrderLine (oid : Nat) (ps : List CreatePick) :
    ∀ st : SimState, ∀ l ∈ st.order_items,
      l ∈ (ps.foldl (createOrderLine oid) st).order_items := by
  induction ps with
  | nil => intro st l hl; exact hl
  | cons p t ih =>
    intro st l hl
    rw [List.foldl_cons]
    exact ih _ l (mem_createOrderLine oid st p l hl)

theorem linesMono_create_order {s s' : SimState} {r : CreateRand}
    (h : create_order s r = .ok s') : linesMono s s' := by
  unfold create_order at h
  split at h
  · cases h
  · rw [Except.ok.injEq] at h
    subst h
    intro l hl
    exact ⟨l, mem_foldl_createOrderLine _ _ _ l hl, rfl, le_refl _, rfl⟩

theorem nodup_map_of_proj {g : OrderItemRow → OrderItemRow}
    {ls : List OrderItemRow}
    (hg : ∀ l, (g l).order_item_id = l.order_item_id)
    (h : (ls.map (·.order_item_id)).Nodup) :
    ((ls.map g).map (·.order_item_id)).Nodup := by
  rw [map_proj_lines g hg ls]
  exact h

theorem fresh_map_of_proj {g : OrderItemRow → OrderItemRow}
    {ls : List OrderItemRow} {n : Nat}
    (hg : ∀ l, (g l).order_item_id = l.order_item_id)
    (h : ∀ l ∈ ls, l.order_item_id < n) :
    ∀ l' ∈ ls.map g, l'.order_item_id < n := by
  intro l' hl'
  rcases List.mem_map.mp hl' with ⟨l, hm, rfl⟩
  rw [hg l]
  exact h l hm

theorem nodup_keys_of_proj {g : InventoryRow → InventoryRow}
    {ls : List InventoryRow}
    (hg : ∀ rw, (g rw).item_id = rw.item_id ∧
      (g rw).supplier_id = rw.supplier_id)
    (h : (ls.map fun rw => (rw.item_id, rw.supplier_id)).Nodup) :
    ((ls.map g).map fun rw => (rw.item_id, rw.supplier_id)).Nodup := by
  rw [map_proj_rows g hg ls]
  exact h

theorem Inv_fulfillApply {s : SimState} {cand : OrderItemRow}
    {row : InventoryRow} (hs : Inv s) (hmem : cand ∈ s.order_items)
    (hlt : cand.fulfilled_quantity < cand.quantity)
    (hrowmem : row ∈ s.inventory) (hri : row.item_id = cand.item_id)
    (hrs : row.supplier_id = cand.supplier_id) :
    Inv (fulfillApply s cand.item_id cand.supplier_id cand.order_item_id
      (min row.quantity_on_hand
        (cand.quantity - cand.fulfilled_quantity))) := by
  obtain ⟨hent, hlb, hinv, hnd, hfr, hkd⟩ := hs
  have hq0 : 0 ≤ row.quantity_on_hand := hinv row hrowmem
  have hr0 : 0 ≤ cand.quantity - cand.fulfilled_quantity := by omega
  have hmin0 : 0 ≤ min row.quantity_on_hand
      (cand.quantity - cand.fulfilled_quantity) := le_min hq0 hr0
  have hminr := min_le_right row.quantity_on_hand
    (cand.quantity - cand.fulfilled_quantity)
  have hminl := min_le_left row.quantity_on_hand
    (cand.quantity - cand.fulfilled_quantity)
  refine ⟨hent, ?_, ?_, ?_, ?_, ?_⟩
  · intro l' hl'
    rcases List.mem_map.mp hl' with ⟨l, hlmem, rfl⟩
    by_cases hid : (l.order_item_id == cand.order_item_id) = true
    · have hleq : l = cand := line_eq_of_id hnd hlmem hmem (eq_of_beq hid)
      have hfq : l.fulfilled_quantity = cand.fulfilled_quantity := by
        rw [hleq]
      have hq : l.quantity = cand.quantity := by rw [hleq]
      rw [if_pos hid]
      refine ⟨add_nonneg (hlb l hlmem).1 hmin0, ?_⟩
      show l.fulfilled_quantity + _ ≤ l.quantity
      omega
    · rw [if_neg hid]
      exact hlb l hlmem
  · intro rw' hrw'
    rcases List.mem_map.mp hrw' with ⟨rw0, hm, rfl⟩
    by_cases hk : (rw0.item_id == cand.item_id &&
        rw0.supplier_id == cand.supplier_id) = true
    · rw [if_pos hk]
      have hk' := hk
      rw [Bool.and_eq_true] at hk'
      have hre : rw0 = row := inv_row_eq hkd hm hrowmem
        (by rw [eq_of_beq hk'.1, hri]) (by rw [eq_of_beq hk'.2, hrs])
      show 0 ≤ rw0.quantity_on_hand - _
      rw [hre]
      omega
    · rw [if_neg hk]
      exact hinv rw0 hm
  · refine nodup_map_of_proj ?_ hnd
    intro l
    by_cases hid : (l.order_item_id == cand.order_item_id) = true
    · rw [if_pos hid]
    · rw [if_neg hid]
  · refine fresh_map_of_proj ?_ hfr
    intro l
    by_cases hid : (l.order_item_id == cand.order_item_id) = true
    · rw [if_pos hid]
    · rw [if_neg hid]
  · refine nodup_keys_of_proj ?_ hkd
    intro rw0
    by_cases hk : (rw0.item_id == cand.item_id &&
        rw0.supplier_id == cand.supplier_id) = true
    · rw [if_pos hk]
      exact ⟨rfl, rfl⟩
    · rw [if_neg hk]
      exact ⟨rfl, rfl⟩

theorem Inv_attempt {s s1 : SimState} {res : ResultData} {oid : Nat}
    {cand : OrderItemRow} {draw : ℚ} (hmem : cand ∈ s.order_items)
    (hlt : cand.fulfilled_quantity < cand.quantity)
    (hcall : _attempt_fulfillment s oid cand.order_item_id cand.item_id
      cand.supplier_id cand.quantity cand.fulfilled_quantity draw =
      .ok (s1, res))
    (hs : Inv s) : Inv s1 := by
  rcases attempt_shape hcall with rfl | ⟨row, hrow, rfl⟩
  · exact hs
  · have hrmem : row ∈ s.inventory := List.mem_of_find?_eq_some hrow
    have hkey := List.find?_some hrow
    rw [Bool.and_eq_true] at hkey
    exact Inv_update_order_status _ _ _
      (Inv_fulfillApply hs hmem hlt hrmem (eq_of_beq hkey.1)
        (eq_of_beq hkey.2))

theorem Inv_fulfill_order {s s' : SimState} {r : FulfillRand}
    (h : fulfill_order s r = .ok s') (hs : Inv s) : Inv s' := by
  rcases fulfill_order_shape h with rfl |
    ⟨oid, cand, s1, res, hcand, hcall, rfl⟩
  · exact hs
  · obtain ⟨hmem, _, hlt⟩ := get_random_item_mem hcand
    have hI := Inv_attempt hmem hlt hcall hs
    exact Inv_congr rfl rfl rfl rfl rfl hI

theorem Inv_restock {s s' : SimState} {r : RestockRand}
    (h : restock_inventory s r = .ok s') (hs : Inv s) : Inv s' := by
  rcases restock_shape h with rfl |
    ⟨chosen, item, supplier, row, hitem, hsup, hrow, rfl⟩
  · exact hs
  · obtain ⟨hent, hlb, hinv, hnd, hfr, hkd⟩ := hs
    have hrmem : row ∈ s.inventory := List.mem_of_find?_eq_some hrow
    have hkey := List.find?_some hrow
    rw [Bool.and_eq_true] at hkey
    have hw : 0 ≤ item.restock_weight := hent.2 _ (lookup_mem hitem)
    have hmax : 0 ≤ supplier.max_quantity := hent.1 _ (lookup_mem hsup)
    have hq0 : 0 ≤ row.quantity_on_hand := hinv row hrmem
    have hsc : 0 ≤ pyInt (10 * item.restock_weight) :=
      pyInt_nonneg _ (mul_nonneg (by norm_num) hw)
    refine ⟨hent, hlb, ?_, hnd, hfr, ?_⟩
    · intro rw' hrw'
      rcases List.mem_map.mp hrw' with ⟨rw0, hm, rfl⟩
      by_cases hk : (rw0.item_id == chosen.item_id &&
          rw0.supplier_id == chosen.supplier_id) = true
      · rw [if_pos hk]
        have hk' := hk
        rw [Bool.and_eq_true] at hk'
        have hre : rw0 = row := inv_row_eq hkd hm hrmem
          (by rw [eq_of_beq hk'.1, eq_of_beq hkey.1])
          (by rw [eq_of_beq hk'.2, eq_of_beq hkey.2])
        show 0 ≤ rw0.quantity_on_hand + restockAmount _ _ _
        rw [hre, restockAmount]
        rcases le_total (pyInt (10 * item.restock_weight))
            (supplier.max_quantity - row.quantity_on_hand) with hc | hc
        · rw [min_eq_left hc]
          exact add_nonneg hq0 hsc
        · rw [min_eq_right hc]
          omega
      · rw [if_neg hk]
        exact hinv rw0 hm
    · refine nodup_keys_of_proj ?_ hkd
      intro rw0
      by_cases hk : (rw0.item_id == chosen.item_id &&
          rw0.supplier_id == chosen.supplier_id) = true
      · rw [if_pos hk]
        exact ⟨rfl, rfl⟩
      · rw [if_neg hk]
        exact ⟨rfl, rfl⟩

theorem foldl_update_order_items (rows : List (Nat × Int)) :
    ∀ s : SimState,
      (rows.foldl (fun st p => update_order_status st p.1 p.2) s).order_items
        = s.order_items := by
  induction rows with
  | nil => intro s; rfl
  | cons p t ih =>
    intro s
    rw [List.foldl_cons, ih]
    rfl

theorem expire_order_items (s : SimState) :
    (expire_old_orders s).order_items = s.order_items :=
  foldl_update_order_items _ s

theorem linesMono_maintenance {s s' : SimState}
    (h : maintenance s = .ok s') : linesMono s s' := by
  unfold maintenance at h
  split at h
  · cases h
  · rename_i s4 hsnap
    cases h
    obtain ⟨_, _, f3, _, _⟩ := snapshotRows_fields _ _ _ hsnap
    refine linesMono_of_eq ?_
    show s4.order_items = s.order_items
    rw [f3]
    exact expire_order_items _

theorem linesMono_fulfill_order {s s' : SimState} {r : FulfillRand}
    (h : fulfill_order s r = .ok s') (hs : Inv s) : linesMono s s' := by
  rcases fulfill_order_shape h with rfl |
    ⟨oid, cand, s1, res, hcand, hcall, rfl⟩
  · exact linesMono_of_eq rfl
  · obtain ⟨hmem, _, hlt⟩ := get_random_item_mem hcand
    rcases attempt_shape hcall with rfl | ⟨row, hrow, rfl⟩
    · exact linesMono_of_eq rfl
    · obtain ⟨hent, hlb, hinv, hnd, hfr, hkd⟩ := hs
      have hq0 : 0 ≤ row.quantity_on_hand :=
        hinv row (List.mem_of_find?_eq_some hrow)
      have hr0 : 0 ≤ cand.quantity - cand.fulfilled_quantity := by omega
      have hmin0 : 0 ≤ min row.quantity_on_hand
          (cand.quantity - cand.fulfilled_quantity) := le_min hq0 hr0
      intro l hl
      by_cases hid : (l.order_item_id == cand.order_item_id) = true
      · exact ⟨_, List.mem_map_of_mem _ hl, by rw [if_pos hid],
          by rw [if_pos hid]; exact le_add_of_nonneg_right hmin0,
          by rw [if_pos hid]⟩
      · exact ⟨_, List.mem_map_of_mem _ hl, by rw [if_neg hid],
          by rw [if_neg hid], by rw [if_neg hid]⟩

theorem linesMono_restock {s s' : SimState} {r : RestockRand}
    (h : restock_inventory s r = .ok s') : linesMono s s' := by
  rcases restock_shape h with rfl | ⟨_, _, _, _, _, _, _, rfl⟩
  · exact linesMono_of_eq rfl
  · exact linesMono_of_eq rfl

theorem Inv_dispatchEvent {ev : EventTag} {r : StepRand} {s s' : SimState}
    (h : dispatchEvent ev r s = .ok s') (hs : Inv s) : Inv s' := by
  cases ev with
  | createOrder => exact Inv_create_order h hs
  | fulfillOrder => exact Inv_fulfill_order h hs
  | restock => exact Inv_restock h hs
  | idle =>
    rw [show dispatchEvent EventTag.idle r s = Except.ok s from rfl,
      Except.ok.injEq] at h
    subst h
    exact hs

theorem linesMono_dispatchEvent {ev : EventTag} {r : StepRand}
    {s s' : SimState} (h : dispatchEvent ev r s = .ok s') (hs : Inv s) :
    linesMono s s' := by
  cases ev with
  | createOrder => exact linesMono_create_order h
  | fulfillOrder => exact linesMono_fulfill_order h hs
  | restock => exact linesMono_restock h
  | idle =>
    rw [show dispatchEvent EventTag.idle r s = Except.ok s from rfl,
      Except.ok.injEq] at h
    subst h
    exact linesMono_of_eq rfl

theorem Inv_caughtDispatch (ev : EventTag) (r : StepRand) (s : SimState)
    (hs : Inv s) : Inv (caughtDispatch ev r s) := by
  unfold caughtDispatch
  split
  · rename_i s1 heq
    exact Inv_dispatchEvent heq hs
  · exact Inv_congr rfl rfl rfl rfl rfl hs

theorem linesMono_caughtDispatch (ev : EventTag) (r : StepRand)
    (s : SimState) (hs : Inv s) : linesMono s (caughtDispatch ev r s) := by
  unfold caughtDispatch
  split
  · rename_i s1 heq
    exact linesMono_dispatchEvent heq hs
  · exact linesMono_of_eq rfl

theorem Inv_runStep {orac : Nat → StepRand} {i : Nat} {s s' : SimState}
    {r2 : StepRecord} (h : runStep orac i s = .ok (s', r2)) (hs : Inv s) :
    Inv s' := by
  simp only [runStep] at h
  split at h
  · cases h
  · rename_i s2 hm
    rw [Except.ok.injEq, Prod.mk.injEq] at h
    obtain ⟨h1, _⟩ := h
    subst h1
    have hs1 : Inv (increment_time s (orac i).minutes_rand) :=
      Inv_increment_time _ _ hs
    have hs2 : Inv s2 := by
      by_cases hi : i % 100 = 0
      · rw [if_pos hi] at hm
        exact Inv_maintenance hm hs1
      · rw [if_neg hi, Except.ok.injEq] at hm
        subst hm
        exact hs1
    exact Inv_caughtDispatch _ _ _ hs2

theorem linesMono_runStep {orac : Nat → StepRand} {i : Nat}
    {s s' : SimState} {r2 : StepRecord}
    (h : runStep orac i s = .ok (s', r2)) (hs : Inv s) : linesMono s s' := by
  simp only [runStep] at h
  split at h
  · cases h
  · rename_i s2 hm
    rw [Except.ok.injEq, Prod.mk.injEq] at h
    obtain ⟨h1, _⟩ := h
    subst h1
    have hs1 : Inv (increment_time s (orac i).minutes_rand) :=
      Inv_increment_time _ _ hs
    have hpair : linesMono (increment_time s (orac i).minutes_rand) s2 ∧
        Inv s2 := by
      by_cases hi : i % 100 = 0
      · rw [if_pos hi] at hm
        exact ⟨linesMono_maintenance hm, Inv_maintenance hm hs1⟩
      · rw [if_neg hi, Except.ok.injEq] at hm
        subst hm
        exact ⟨linesMono_of_eq rfl, hs1⟩
    exact linesMono_trans (linesMono_trans (linesMono_of_eq rfl) hpair.1)
      (linesMono_caughtDispatch _ _ _ hpair.2)

theorem Inv_runSteps (orac : Nat → StepRand) (l : List Nat) :
    ∀ (s : SimState) (tr : List StepRecord) (s' : SimState),
      runSteps orac l s = (tr, .ok s') → Inv s → Inv s' := by
  induction l with
  | nil =>
    intro s tr s' h hs
    have h' : (([] : List StepRecord), (Except.ok s : Except Fault SimState))
        = (tr, Except.ok s') := h
    rw [Prod.mk.injEq, Except.ok.injEq] at h'
    obtain ⟨_, h2⟩ := h'
    subst h2
    exact hs
  | cons i rest ih =>
    intro s tr s' h hs
    unfold runSteps at h
    split at h
    · rw [Prod.mk.injEq] at h
      exact absurd h.2 (by simp)
    · rename_i s1 r2 hstep
      split at h
      rename_i tr1 res1 hrec
      rw [Prod.mk.injEq] at h
      obtain ⟨_, hres⟩ := h
      subst hres
      exact ih s1 tr1 s' hrec (Inv_runStep hstep hs)

theorem Inv_run {orac : Nat → StepRand} {n : Nat} {s : SimState}
    {tr : List StepRecord} {s' : SimState}
    (h : run orac n s = (tr, .ok s')) (hs : Inv s) : Inv s' := by
  unfold run at h
  split at h
  · rename_i tr0 f hrec
    rw [Prod.mk.injEq] at h
    exact absurd h.2 (by simp)
  · rename_i tr0 s1 hrec
    rw [Prod.mk.injEq, Except.ok.injEq] at h
    obtain ⟨_, h2⟩ := h
    subst h2
    exact Inv_congr rfl rfl rfl rfl rfl (Inv_runSteps orac _ s tr0 s1 hrec hs)

/-- The success branch of `_attempt_fulfillment`, explicitly: inventory
decremented and line incremented by exactly `min(on_hand, requested -
already_fulfilled)`, and the structured success outcome. -/
theorem attempt_success_eq (s : SimState) (oid olid iid sid : Nat)
    (q fq : Int) (draw : ℚ) (item : Item) (supplier : Supplier)
    (row : InventoryRow)
    (hi : s.items.lookup iid = some item)
    (hsup : s.suppliers.lookup sid = some supplier)
    (hd : ¬ draw < supplier.failure_rate + item.failure_rate)
    (hrow : lookupInventory s iid sid = some row)
    (hq : row.quantity_on_hand ≠ 0) :
    _attempt_fulfillment s oid olid iid sid q fq draw =
      .ok (update_order_status
          (fulfillApply s iid sid olid (min row.quantity_on_hand (q - fq)))
          oid (dateOf s.sim_time),
        { baseResult s oid iid sid q fq with
          newly_fulfilled := min row.quantity_on_hand (q - fq)
          success := true }) := by
  simp [_attempt_fulfillment, baseResult, hi, hsup, hd, hrow, hq]
  rfl

/-- The success branch of `restock_inventory`, explicitly. -/
theorem restock_success_eq (s : SimState) (r : RestockRand)
    (chosen : InventoryRow) (item : Item) (supplier : Supplier)
    (ws : List ℚ)
    (hpick : pickFrom (lowStockRows s) r.chosen_idx = some chosen)
    (hws : weightsOf s ((lowStockRows s).map (·.item_id)) = .ok ws)
    (hitem : s.items.lookup chosen.item_id = some item)
    (hsup : s.suppliers.lookup chosen.supplier_id = some supplier)
    (hlook : lookupInventory s chosen.item_id chosen.supplier_id =
      some chosen) :
    restock_inventory s r = .ok { s with
      inventory := s.inventory.map fun rw =>
        if rw.item_id == chosen.item_id &&
            rw.supplier_id == chosen.supplier_id then
          { rw with
            quantity_on_hand := rw.quantity_on_hand +
              restockAmount item.restock_weight supplier.max_quantity
                chosen.quantity_on_hand
            last_updated := some (dateOf s.sim_time) }
        else rw } := by
  have hne : (lowStockRows s).isEmpty = false := by
    cases hc : lowStockRows s with
    | nil => rw [hc] at hpick; simp [pickFrom] at hpick
    | cons a t => rfl
  simp [restock_inventory, hne, hws, hpick, hitem, hsup, hlook]

/-! ### C2 -/

/-- C2: after every loop step (hence every engine operation) each order
line keeps `0 ≤ FULFILLED_QUANTITY ≤ QUANTITY` (and the whole invariant
bundle), likewise after a whole run; lines are created with fulfilled
quantity zero; fulfilled quantities never decrease across a step; and a
successful fulfillment attempt increases the selected line by exactly
`min(on_hand, requested - already_fulfilled)`. -/
theorem claim_C2 :
    (∀ (orac : Nat → StepRand) (i : Nat) (s s' : SimState)
      (r2 : StepRecord), Inv s → runStep orac i s = .ok (s', r2) →
      lineBound s' ∧ Inv s')
    ∧ (∀ (orac : Nat → StepRand) (n : Nat) (s : SimState)
        (tr : List StepRecord) (s' : SimState), Inv s →
        run orac n s = (tr, .ok s') → lineBound s')
    ∧ (∀ (s : SimState) (r : CreateRand) (s' : SimState),
        create_order s r = .ok s' →
        ∀ l ∈ s'.order_items, l ∈ s.order_items ∨ l.fulfilled_quantity = 0)
    ∧ (∀ (orac : Nat → StepRand) (i : Nat) (s s' : SimState)
        (r2 : StepRecord), Inv s → runStep orac i s = .ok (s', r2) →
        linesMono s s')
    ∧ (∀ (s : SimState) (oid olid iid sid : Nat) (q fq : Int) (draw : ℚ)
        (item : Item) (supplier : Supplier) (row : InventoryRow),
        s.items.lookup iid = some item →
        s.suppliers.lookup sid = some supplier →
        ¬ draw < supplier.failure_rate + item.failure_rate →
        lookupInventory s iid sid = some row →
        row.quantity_on_hand ≠ 0 →
        _attempt_fulfillment s oid olid iid sid q fq draw =
          .ok (update_order_status
              (fulfillApply s iid sid olid
                (min row.quantity_on_hand (q - fq)))
              oid (dateOf s.sim_time),
            { baseResult s oid iid sid q fq with
              newly_fulfilled := min row.quantity_on_hand (q - fq)
              success := true })) := by
  refine ⟨?_, ?_, ?_, ?_, ?_⟩
  · intro orac i s s' r2 hs h
    have hI := Inv_runStep h hs
    exact ⟨hI.2.1, hI⟩
  · intro orac n s tr s' hs h
    exact (Inv_run h hs).2.1
  · intro s r s' h l hl
    exact create_order_lines h l hl
  · intro orac i s s' r2 hs h
    exact linesMono_runStep h hs
  · intro s oid olid iid sid q fq draw item supplier row hi hsup hd hrow hq
    exact attempt_success_eq s oid olid iid sid q fq draw item supplier row
      hi hsup hd hrow hq

/-- The constant all-idle oracle used by concrete loop witnesses. -/
def oracIdle : Nat → StepRand := fun _ =>
  { minutes_rand := 0, event := .idle,
    create_rand := { customer_idx := 0, picks := [] },
    fulfill_rand := { order_idx := 0, line_idx := 0, draw := 0 },
    restock_rand := { chosen_idx := 0 } }

theorem Inv_stateStockout : Inv stateStockout := by
  refine ⟨⟨?_, ?_⟩, ?_, ?_, ?_, ?_, ?_⟩ <;>
    norm_num [stateStockout, entitiesOK, lineBound, invNonneg,
      lineIdsNodup, lineIdsFresh, invKeysNodup, supA, itemA, lineZero,
      rowEmpty, orderA]

/-- C2 witness: one concrete idle step from the stockout fixture keeps the
line bound and the invariant bundle. -/
theorem claim_C2_witness :
    Inv stateStockout ∧
    runStep oracIdle 1 stateStockout =
      .ok ({ stateStockout with sim_time := 1 },
        { idx := 1, minutes := 1, maint := false, event := .idle,
          caught_fault := false }) ∧
    (lineBound { stateStockout with sim_time := 1 } ∧
      Inv { stateStockout with sim_time := 1 }) :=
  ⟨Inv_stateStockout, rfl,
    claim_C2.1 oracIdle 1 stateStockout { stateStockout with sim_time := 1 }
      { idx := 1, minutes := 1, maint := false, event := .idle,
        caught_fault := false } Inv_stateStockout rfl⟩

/-! ### C3 -/

/-- C3: after every loop step (hence every engine operation) every
inventory row keeps `QUANTITY_ON_HAND ≥ 0`, likewise after a whole run;
and immediately after a restock every inventory row is either untouched or
is bounded by its owning supplier's `max_quantity` (under the claim's
assumption that it started at or below capacity). -/
theorem claim_C3 :
    (∀ (orac : Nat → StepRand) (i : Nat) (s s' : SimState)
      (r2 : StepRecord), Inv s → runStep orac i s = .ok (s', r2) →
      invNonneg s')
    ∧ (∀ (orac : Nat → StepRand) (n : Nat) (s : SimState)
        (tr : List StepRecord) (s' : SimState), Inv s →
        run orac n s = (tr, .ok s') → invNonneg s')
    ∧ (∀ (s : SimState) (r : RestockRand) (s' : SimState), Inv s →
        restock_inventory s r = .ok s' →
        ∀ rw' ∈ s'.inventory, rw' ∈ s.inventory ∨
          ∃ rw ∈ s.inventory, ∃ supplier : Supplier,
            s.suppliers.lookup rw'.supplier_id = some supplier ∧
            rw'.item_id = rw.item_id ∧ rw'.supplier_id = rw.supplier_id ∧
            (rw.quantity_on_hand ≤ supplier.max_quantity →
              rw'.quantity_on_hand ≤ supplier.max_quantity)) := by
  refine ⟨?_, ?_, ?_⟩
  · intro orac i s s' r2 hs h
    exact (Inv_runStep h hs).2.2.1
  · intro orac n s tr s' hs h
    exact (Inv_run h hs).2.2.1
  · intro s r s' hs h rw' hrw'
    rcases restock_shape h with rfl |
      ⟨chosen, item, supplier, row, hitem, hsup, hrow, rfl⟩
    · exact Or.inl hrw'
    · obtain ⟨hent, hlb, hinv, hnd, hfr, hkd⟩ := hs
      have hrmem : row ∈ s.inventory := List.mem_of_find?_eq_some hrow
      have hkey := List.find?_some hrow
      rw [Bool.and_eq_true] at hkey
      rcases List.mem_map.mp hrw' with ⟨rw0, hm, rfl⟩
      by_cases hk : (rw0.item_id == chosen.item_id &&
          rw0.supplier_id == chosen.supplier_id) = true
      · right
        have hk' := hk
        rw [Bool.and_eq_true] at hk'
        have hre : rw0 = row := inv_row_eq hkd hm hrmem
          (by rw [eq_of_beq hk'.1, eq_of_beq hkey.1])
          (by rw [eq_of_beq hk'.2, eq_of_beq hkey.2])
        refine ⟨rw0, hm, supplier, ?_, ?_, ?_, ?_⟩
        · rw [if_pos hk]
          show s.suppliers.lookup rw0.supplier_id = some supplier
          rw [eq_of_beq hk'.2]
          exact hsup
        · rw [if_pos hk]
        · rw [if_pos hk]
        · intro _
          rw [if_pos hk]
          show rw0.quantity_on_hand + restockAmount _ _ _ ≤
            supplier.max_quantity
          have hminr := min_le_right (pyInt (10 * item.restock_weight))
            (supplier.max_quantity - row.quantity_on_hand)
          rw [hre, restockAmount]
          omega
      · rw [if_neg hk]
        exact Or.inl hm

/-- An inventory row fixture derived from `rowLow` after the scenario
restock. -/
def stateRestocked : SimState :=
  { stateRestock with inventory := [{ rowLow with
      quantity_on_hand := rowLow.quantity_on_hand +
        restockAmount itemA.restock_weight supA.max_quantity
          rowLow.quantity_on_hand
      last_updated := some (dateOf stateRestock.sim_time) }] }

theorem restock_stateRestock_eval :
    restock_inventory stateRestock { chosen_idx := 0 } =
      .ok stateRestocked := by
  rw [restock_success_eq stateRestock { chosen_idx := 0 } rowLow itemA supA
    [itemA.restock_weight] rfl rfl rfl rfl rfl]
  rfl

theorem Inv_stateRestock : Inv stateRestock := by
  refine ⟨⟨?_, ?_⟩, ?_, ?_, ?_, ?_, ?_⟩ <;>
    norm_num [stateRestock, entitiesOK, lineBound, invNonneg,
      lineIdsNodup, lineIdsFresh, invKeysNodup, supA, itemA, rowLow]

/-- C3 witness: the concrete scenario restock (38 on hand, capacity 40)
keeps every row at or below its supplier's capacity. -/
theorem claim_C3_witness :
    Inv stateRestock ∧
    restock_inventory stateRestock { chosen_idx := 0 } =
      .ok stateRestocked ∧
    (∀ rw' ∈ stateRestocked.inventory, rw' ∈ stateRestock.inventory ∨
      ∃ rw ∈ stateRestock.inventory, ∃ supplier : Supplier,
        stateRestock.suppliers.lookup rw'.supplier_id = some supplier ∧
        rw'.item_id = rw.item_id ∧ rw'.supplier_id = rw.supplier_id ∧
        (rw.quantity_on_hand ≤ supplier.max_quantity →
          rw'.quantity_on_hand ≤ supplier.max_quantity)) := by
  exact ⟨Inv_stateRestock, restock_stateRestock_eval,
    claim_C3.2.2 stateRestock { chosen_idx := 0 } stateRestocked
      Inv_stateRestock restock_stateRestock_eval⟩

/-! ### C7 and C8: the run loop -/

theorem runStep_record {orac : Nat → StepRand} {i : Nat} {s s' : SimState}
    {r2 : StepRecord} (h : runStep orac i s = .ok (s', r2)) :
    r2.idx = i ∧ r2.minutes = 1 + (orac i).minutes_rand % 15 ∧
    (r2.maint = true ↔ i % 100 = 0) ∧ r2.event = (orac i).event := by
  simp only [runStep] at h
  split at h
  · cases h
  · rw [Except.ok.injEq, Prod.mk.injEq] at h
    obtain ⟨_, h2⟩ := h
    subst h2
    refine ⟨rfl, rfl, ?_, rfl⟩
    show ((i % 100 == 0) = true ↔ i % 100 = 0)
    simp

theorem runSteps_trace (orac : Nat → StepRand) (l : List Nat) :
    ∀ (s : SimState) (tr : List StepRecord) (s' : SimState),
      runSteps orac l s = (tr, .ok s') → tr.map (·.idx) = l := by
  induction l with
  | nil =>
    intro s tr s' h
    have h' : (([] : List StepRecord), (Except.ok s : Except Fault SimState))
        = (tr, Except.ok s') := h
    rw [Prod.mk.injEq] at h'
    rw [← h'.1]
    rfl
  | cons i rest ih =>
    intro s tr s' h
    unfold runSteps at h
    split at h
    · rw [Prod.mk.injEq] at h
      exact absurd h.2 (by simp)
    · rename_i s1 r2 hstep
      split at h
      rename_i tr1 res1 hrec
      rw [Prod.mk.injEq] at h
      obtain ⟨htr, hres⟩ := h
      subst hres
      subst htr
      rw [List.map_cons, (runStep_record hstep).1, ih s1 tr1 s' hrec]

theorem runSteps_records (orac : Nat → StepRand) (l : List Nat) :
    ∀ s : SimState, ∀ r2 ∈ (runSteps orac l s).1,
      (1 ≤ r2.minutes ∧ r2.minutes ≤ 15) ∧
      (r2.maint = true ↔ r2.idx % 100 = 0) ∧
      r2.event ∈ [EventTag.createOrder, EventTag.fulfillOrder,
        EventTag.restock, EventTag.idle] := by
  induction l with
  | nil =>
    intro s r2 hr2
    simp [runSteps] at hr2
  | cons i rest ih =>
    intro s r2 hr2
    unfold runSteps at hr2
    split at hr2
    · simp at hr2
    · rename_i s1 rr hstep
      split at hr2
      rename_i tr1 res1 hrec
      rcases List.mem_cons.mp hr2 with rfl | hr2'
      · obtain ⟨hidx, hmin, hmaint, hev⟩ := runStep_record hstep
        refine ⟨⟨?_, ?_⟩, ?_, ?_⟩
        · rw [hmin]; omega
        · rw [hmin]
          have := Nat.mod_lt (orac i).minutes_rand
            (show 0 < 15 by norm_num)
          omega
        · rw [hmaint, hidx]
        · rw [hev]
          cases (orac i).event <;> simp
      · have hmem : r2 ∈ (runSteps orac rest s1).1 := by
          rw [hrec]
          exact hr2'
        exact ih s1 r2 hmem

theorem run_fst (orac : Nat → StepRand) (n : Nat) (s : SimState) :
    (run orac n s).1 = (runSteps orac (List.range' 1 (n - 1)) s).1 := by
  unfold run
  split
  · rename_i tr0 f hrec
    rw [hrec]
  · rename_i tr0 s1 hrec
    rw [hrec]

/-- C7 (amended): the loop body runs exactly `n - 1` times (indices
`1 … n-1`); every step advances the clock by 1–15 minutes, flags
maintenance exactly when its index is a multiple of 100, and selects one
of the four events on *every* step (maintenance steps included); a
completed run ends with the final buffer flush. -/
theorem claim_C7_amended (orac : Nat → StepRand) (n : Nat) (s : SimState) :
    (∀ (tr : List StepRecord) (s' : SimState),
      run orac n s = (tr, .ok s') →
      tr.map (·.idx) = List.range' 1 (n - 1) ∧ tr.length = n - 1 ∧
      s'.recent_fulfillments = [])
    ∧ (∀ r2 ∈ (run orac n s).1,
        (1 ≤ r2.minutes ∧ r2.minutes ≤ 15) ∧
        (r2.maint = true ↔ r2.idx % 100 = 0) ∧
        r2.event ∈ [EventTag.createOrder, EventTag.fulfillOrder,
          EventTag.restock, EventTag.idle]) := by
  constructor
  · intro tr s' h
    unfold run at h
    split at h
    · rw [Prod.mk.injEq] at h
      exact absurd h.2 (by simp)
    · rename_i tr0 s1 hrec
      rw [Prod.mk.injEq, Except.ok.injEq] at h
      obtain ⟨h1, h2⟩ := h
      subst h1
      subst h2
      have hm := runSteps_trace orac _ s tr0 s1 hrec
      refine ⟨hm, ?_, rfl⟩
      have := congrArg List.length hm
      rwa [List.length_map, List.length_range'] at this
  · intro r2 hr2
    rw [run_fst] at hr2
    exact runSteps_records orac _ s r2 hr2

/-- The constant create-order oracle used by the C7 counterexample. -/
def oracCreate : Nat → StepRand := fun _ =>
  { minutes_rand := 0, event := .createOrder,
    create_rand := { customer_idx := 0, picks := [] },
    fulfill_rand := { order_idx := 0, line_idx := 0, draw := 0 },
    restock_rand := { chosen_idx := 0 } }

set_option maxRecDepth 20000 in
/-- C7 counterexample: with a configured step count of 1 the loop body
never executes (0 steps, not 1); and with 101 configured steps the 100th
step both runs maintenance and dispatches a create-order event — the
order count grows on the maintenance step too (101 orders, one per step,
not 100). -/
theorem claim_C7_counterexample :
    (run oracIdle 1 stateStockout).1.length = 0 ∧ (0 : Nat) ≠ 1 ∧
    ((run oracCreate 101 stateStockout).1[99]?).map
      (fun r2 => (r2.maint, r2.event)) =
      some (true, EventTag.createOrder) ∧
    (match (run oracCreate 101 stateStockout).2 with
      | Except.ok s' => s'.orders.length
      | Except.error _ => 0) = 101 := by
  refine ⟨rfl, by decide, by decide, by decide⟩

/-- C7 witness: a 3-step idle run executes steps 1 and 2 and ends with the
final flush. -/
theorem claim_C7_witness :
    run oracIdle 3 stateStockout =
      ([{ idx := 1, minutes := 1, maint := false, event := .idle,
          caught_fault := false },
        { idx := 2, minutes := 1, maint := false, event := .idle,
          caught_fault := false }],
       .ok { stateStockout with sim_time := 2, commit_count := 1 }) ∧
    (([{ idx := 1, minutes := 1, maint := false, event := .idle,
          caught_fault := false },
        { idx := 2, minutes := 1, maint := false, event := .idle,
          caught_fault := false }] : List StepRecord).map (·.idx) =
        List.range' 1 (3 - 1) ∧
      ([{ idx := 1, minutes := 1, maint := false, event := .idle,
          caught_fault := false },
        { idx := 2, minutes := 1, maint := false, event := .idle,
          caught_fault := false }] : List StepRecord).length = 3 - 1 ∧
      ({ stateStockout with sim_time := 2, commit_count := 1 }
        : SimState).recent_fulfillments = []) := by
  exact ⟨rfl, (claim_C7_amended oracIdle 3 stateStockout).1 _ _ rfl⟩

/-- C8 (amended): a fault raised while executing the dispatched event is
caught at the per-step boundary — the error is reported on the console,
the pre-dispatch state is kept, and a non-maintenance step therefore never
aborts; but a fault inside the periodic maintenance block is not caught
(see the counterexample, where it aborts the whole run). -/
theorem claim_C8_amended :
    (∀ (ev : EventTag) (r : StepRand) (s : SimState) (f : Fault),
      dispatchEvent ev r s = .error f →
      caughtDispatch ev r s =
        { s with console := s.console ++ [errorMessage ev] })
    ∧ (∀ (orac : Nat → StepRand) (i : Nat) (s : SimState), i % 100 ≠ 0 →
        ∃ (s' : SimState) (r2 : StepRecord),
          runStep orac i s = .ok (s', r2)) := by
  constructor
  · intro ev r s f h
    unfold caughtDispatch
    rw [h]
  · intro orac i s hi
    refine ⟨caughtDispatch (orac i).event (orac i)
        (increment_time s (orac i).minutes_rand),
      { idx := i, minutes := 1 + (orac i).minutes_rand % 15,
        maint := i % 100 == 0, event := (orac i).event,
        caught_fault := isFault (dispatchEvent (orac i).event (orac i)
          (increment_time s (orac i).minutes_rand)) }, ?_⟩
    simp only [runStep]
    rw [if_neg hi]

/-- A state whose inventory references an unknown item id: the maintenance
snapshot raises `KeyError` on it. -/
def rowBadItem : InventoryRow :=
  { item_id := 999, supplier_id := 1, quantity_on_hand := 0,
    reorder_point := 0, last_updated := none }

/-- A state whose inventory references the unknown item id 999. -/
def stateBadItem : SimState :=
  { stateNoSup with inventory := [rowBadItem] }

set_option maxRecDepth 20000 in
/-- C8 counterexample: a fault raised inside the step-100 maintenance
block is not caught — the run aborts with the fault after 99 of its 100
steps. -/
theorem claim_C8_counterexample :
    (run oracIdle 101 stateBadItem).2 = .error (Fault.keyError 999) ∧
    (run oracIdle 101 stateBadItem).1.length = 99 ∧ (99 : Nat) ≠ 101 - 1 := by
  refine ⟨by decide, by decide, by decide⟩

/-- A state with no customers: dispatching a create-order event raises
`IndexError` (caught at the step boundary). -/
def stateNoCust : SimState := { stateNoSup with customers := [] }

/-- C8 witness: a concrete dispatch fault (create-order with no
customers) is caught and reported, and a concrete non-maintenance step
never aborts. -/
theorem claim_C8_witness :
    dispatchEvent EventTag.createOrder (oracIdle 0) stateNoCust =
      .error Fault.indexError ∧
    caughtDispatch EventTag.createOrder (oracIdle 0) stateNoCust =
      { stateNoCust with console :=
          stateNoCust.console ++ [errorMessage EventTag.createOrder] } ∧
    (1 % 100 ≠ 0 ∧ ∃ (s' : SimState) (r2 : StepRecord),
      runStep oracIdle 1 stateStockout = .ok (s', r2)) := by
  exact ⟨rfl, claim_C8_amended.1 _ _ _ _ rfl,
    by decide, claim_C8_amended.2 oracIdle 1 stateStockout (by decide)⟩

end SupplySim
